import Mathlib

/-!
# SCD30 driver: command/response protocol engine

A shallow embedding of `scd30.go`.

* A byte is a natural number below 256; a `uint16` is a natural number below 65536.
  Operations that can overflow the machine width reduce explicitly (`% 256`).
* A `float32` is represented by its IEEE-754 bit pattern (`math.Float32frombits` is a
  reinterpretation of bits, so the pattern determines the value).
* A Go `(value, error)` result is an `Except Error value`; a bare `error` result is an
  `Except Error Unit`.  The placeholder value Go returns next to a non-nil error
  (`0`, `false`, `nil`, `NaN`) is not represented.
* Stateful code passes a `World` explicitly: the state of the bus and the trace of
  effects (mutex operations, bus transactions, sleeps) performed so far.
* A `bytes.Buffer` is the list of its unread bytes.
-/

namespace Scd30

/-- The errors the driver can return.  `EOF` is `io.EOF` from `bytes.Buffer.ReadByte`,
`crcError` is the value built by `fmt.Errorf("crc error, expected %x got %x", ...)`,
`busError` is an error returned by the bus transport, and `indexOutOfRange` stands for
the run-time panic of an out-of-range index or slice expression. -/
inductive Error where
  | EOF
  | crcError (expected got : Nat)
  | busError (code : Nat)
  | indexOutOfRange
deriving DecidableEq, Repr

/-! ## Package `github.com/sigurn/crc8` -/

namespace crc8

/-- Parameters of a CRC-8 algorithm (`crc8.Params`). -/
structure Params where
  Poly : Nat
  Init : Nat
  RefIn : Bool
  RefOut : Bool
  XorOut : Nat
  Check : Nat
  Name : String

/-- The lookup table with the parameters it was made from (`crc8.Table`). -/
structure Table where
  params : Params
  data : List Nat

/-- One round of the inner loop of `MakeTable`:
`bit := (crc & 0x80) != 0; crc <<= 1; if bit then crc ^= poly`, on a `uint8`. -/
def tableStep (poly crc : Nat) : Nat :=
  let bit := (crc &&& 0x80) != 0
  let crc := (crc <<< 1) % 256
  if bit then crc ^^^ poly else crc

/-- Modelled from the spec: the package `github.com/sigurn/crc8` is imported by
`scd30.go` and is not among the sources.  `MakeTable` builds the 256-entry table of the
CRC-8 with the given polynomial: entry `n` is `n` after eight rounds of `tableStep`. -/
def MakeTable (params : Params) : Table :=
  { params := params
    data := (List.range 256).map (fun n => (tableStep params.Poly)^[8] n) }

/-- Reversal of the eight bits of a byte (`bits.Reverse8`). -/
def Reverse8 (b : Nat) : Nat :=
  (List.range 8).foldl (fun acc i => acc ||| (((b >>> i) &&& 1) <<< (7 - i))) 0

/-- Initial value of the checksum (`crc8.Init`). -/
def Init (table : Table) : Nat := table.params.Init

/-- Modelled from the spec: `crc8.Update` of the absent package `github.com/sigurn/crc8`;
it folds the bytes into the checksum by table lookup, `crc = table.data[crc ^ d]`,
reflecting each input byte first when `RefIn` is set. -/
def Update (crc : Nat) (data : List Nat) (table : Table) : Nat :=
  if table.params.RefIn then
    data.foldl (fun crc d => table.data.getD (crc ^^^ Reverse8 d) 0) crc
  else
    data.foldl (fun crc d => table.data.getD (crc ^^^ d) 0) crc

/-- Final step of the checksum (`crc8.Complete`): optional reflection, then the final xor. -/
def Complete (crc : Nat) (table : Table) : Nat :=
  if table.params.RefOut then Reverse8 crc ^^^ table.params.XorOut
  else crc ^^^ table.params.XorOut

/-- Modelled from the spec: `crc8.Checksum` of the absent package
`github.com/sigurn/crc8`: `Init`, then `Update` over the data, then `Complete`. -/
def Checksum (data : List Nat) (table : Table) : Nat :=
  Complete (Update (Init table) data table) table

end crc8

/-! ## Packages `encoding/binary`, `math`, `bytes` -/

/-- Function `binary.BigEndian.PutUint16` into a fresh two-byte slice. -/
def PutUint16 (v : Nat) : List Nat := [(v >>> 8) % 256, v % 256]

/-- Function `binary.BigEndian.Uint16`: it panics when the slice has fewer than two bytes. -/
def Uint16 (b : List Nat) : Except Error Nat :=
  match b with
  | b0 :: b1 :: _ => .ok (b1 ||| (b0 <<< 8))
  | _ => .error .indexOutOfRange

/-- Function `binary.BigEndian.Uint32`: it panics when the slice has fewer than four bytes. -/
def Uint32 (b : List Nat) : Except Error Nat :=
  match b with
  | b0 :: b1 :: b2 :: b3 :: _ => .ok (b3 ||| (b2 <<< 8) ||| (b1 <<< 16) ||| (b0 <<< 24))
  | _ => .error .indexOutOfRange

/-- Function `math.Float32frombits`: a `float32` is represented by its bit pattern. -/
def Float32frombits (b : Nat) : Nat := b

/-- Method `(*bytes.Buffer).Next(n)`: the next `n` unread bytes (fewer when the buffer holds
fewer), and the buffer advanced past them. -/
def Buffer.Next (n : Nat) (buf : List Nat) : List Nat × List Nat :=
  (buf.take n, buf.drop n)

/-- Method `(*bytes.Buffer).ReadByte`: the next unread byte, or `io.EOF` on an empty buffer. -/
def Buffer.ReadByte (buf : List Nat) : Except Error Nat × List Nat :=
  match buf with
  | [] => (.error .EOF, [])
  | b :: rest => (.ok b, rest)

/-- Index expression `data[i]` with its bounds check. -/
def index (data : List Nat) (i : Nat) : Except Error Nat :=
  match data.get? i with
  | some b => .ok b
  | none => .error .indexOutOfRange

/-- Slice expression `data[:n]` with its bounds check. -/
def sliceTo (data : List Nat) (n : Nat) : Except Error (List Nat) :=
  if n ≤ data.length then .ok (data.take n) else .error .indexOutOfRange

/-! ## Package `periph.io/x/conn/v3/i2c` and the effect trace -/

/-- The arguments of one call `Bus.Tx(addr, w, r)`: the address, the write buffer
(`none` for `nil`) and the length of the read buffer (`none` for `nil`). -/
structure TxCall where
  addr : Nat
  w : Option (List Nat)
  r : Option Nat
deriving DecidableEq, Repr

/-- What the bus answers to a transaction: an error code (`none` for a `nil` error) and
the bytes it stores into the read buffer. -/
structure TxReply where
  err : Option Nat
  data : List Nat
deriving DecidableEq, Repr

/-- The observable effects of the driver, in the order they happen. -/
inductive Effect where
  | lock
  | unlock
  | tx (call : TxCall) (err : Option Nat)
  | sleep (nanoseconds : Nat)
deriving DecidableEq, Repr

/-- The state the driver runs in: the state of the bus and the effects so far. -/
structure World (σ : Type) where
  bus : σ
  trace : List Effect

/-- Appending one effect to the trace. -/
def World.emit {σ : Type} (e : Effect) (s : World σ) : World σ :=
  { s with trace := s.trace ++ [e] }

/-- The bus transactions of a trace, in order. -/
def busTxs (trace : List Effect) : List TxCall :=
  trace.filterMap (fun e => match e with
    | .tx call _ => some call
    | _ => none)

namespace i2c

/-- The interface `i2c.Bus`: a transaction maps the state of the bus to a reply and a new
state. -/
structure Bus (σ : Type) where
  Tx : σ → TxCall → TxReply × σ

/-- The struct `i2c.Dev`: a bus and the address of a device on it. -/
structure Dev (σ : Type) where
  Addr : Nat
  Bus : i2c.Bus σ

/-- Method `(*i2c.Dev).Tx(w, r)`, which is `d.Bus.Tx(d.Addr, w, r)`.  The read buffer has a
fixed length and starts zeroed; the result carries its contents after the transaction. -/
def Dev.Tx {σ : Type} (d : Dev σ) (w : Option (List Nat)) (r : Option Nat) (s : World σ) :
    (Option Error × List Nat) × World σ :=
  let call : TxCall := { addr := d.Addr, w := w, r := r }
  let res := d.Bus.Tx s.bus call
  let buf := (List.range (r.getD 0)).map (fun i => res.1.data.getD i 0 % 256)
  ((res.1.err.map Error.busError, buf),
   { bus := res.2, trace := s.trace ++ [Effect.tx call res.1.err] })

end i2c

/-- Constant `time.Millisecond`, in nanoseconds. -/
def Millisecond : Nat := 1000000

/-- Function `time.Sleep(d)`. -/
def Sleep {σ : Type} (d : Nat) (s : World σ) : World σ := s.emit (.sleep d)

/-- Function `mutex.Lock()` on the package-level mutex. -/
def mutexLock {σ : Type} (s : World σ) : World σ := s.emit .lock

/-- Function `mutex.Unlock()` on the package-level mutex. -/
def mutexUnlock {σ : Type} (s : World σ) : World σ := s.emit .unlock

/-- The idiom `mutex.Lock(); defer mutex.Unlock()` around a function body. -/
def withMutex {σ α : Type} (body : World σ → α × World σ) (s : World σ) : α × World σ :=
  let r := body (mutexLock s)
  (r.1, mutexUnlock r.2)

/-! ## `scd30.go` -/

/-- The struct `Measurement`; each field is the bit pattern of a `float32`. -/
structure Measurement where
  CO2 : Nat
  Temperature : Nat
  Humidity : Nat
deriving DecidableEq, Repr

/-- The struct `SCD30`. -/
structure SCD30 (σ : Type) where
  dev : i2c.Dev σ

/-- The table made in `init`. -/
def crcTable : crc8.Table :=
  crc8.MakeTable
    { Poly := 0x31, Init := 0xff, RefIn := false, RefOut := false, XorOut := 0x00,
      Check := 0xff, Name := "Sensirion" }

/-- Function `crc`: the checksum of the data under `crcTable`. -/
def crc (data : List Nat) : Nat := crc8.Checksum data crcTable

/-- Function `Open`: binds address 0x61 to the bus. -/
def Open {σ : Type} (bus : i2c.Bus σ) (s : World σ) : Except Error (SCD30 σ) × World σ :=
  withMutex (fun s => (.ok { dev := { Addr := 0x61, Bus := bus } }, s)) s

/-- Function `writeAndWait`: a write-only transaction, then a sleep of 4 ms when it succeeded. -/
def writeAndWait {σ : Type} (dev : SCD30 σ) (data : List Nat) (s : World σ) :
    Except Error Unit × World σ :=
  match dev.dev.Tx (some data) none s with
  | ((some err, _), s) => (.error err, s)
  | ((none, _), s) => (.ok (), Sleep (4 * Millisecond) s)

/-- Function `readData`: a read-only transaction into a fresh buffer of `len` bytes. -/
def readData {σ : Type} (dev : SCD30 σ) (len : Nat) (s : World σ) :
    Except Error (List Nat) × World σ :=
  match dev.dev.Tx none (some len) s with
  | ((some err, _), s) => (.error err, s)
  | ((none, data), s) => (.ok data, s)

/-- Function `sendCommand`: writes the two bytes of the opcode, big-endian. -/
def sendCommand {σ : Type} (dev : SCD30 σ) (cmd : Nat) (s : World σ) :
    Except Error Unit × World σ :=
  let cmdData := PutUint16 cmd
  writeAndWait dev cmdData s

/-- Function `sendCommandArg`: writes opcode, argument and the checksum of the argument bytes. -/
def sendCommandArg {σ : Type} (dev : SCD30 σ) (cmd arg : Nat) (s : World σ) :
    Except Error Unit × World σ :=
  let cmdData := PutUint16 cmd
  let argData := PutUint16 arg
  let write := [cmdData.getD 0 0, cmdData.getD 1 0, argData.getD 0 0, argData.getD 1 0,
    crc argData]
  writeAndWait dev write s

/-- Function `readValid16`: takes two data bytes and a checksum byte from the buffer and returns
the data bytes when the checksum matches. -/
def readValid16 (buf : List Nat) : Except Error (List Nat) × List Nat :=
  let (data, buf) := Buffer.Next 2 buf
  match Buffer.ReadByte buf with
  | (.error err, buf) => (.error err, buf)
  | (.ok crc8, buf) =>
    if crc data != crc8 then (.error (.crcError (crc data) crc8), buf)
    else (.ok data, buf)

/-- The loop of `readValidFloat32`: `n` more rounds of `readValid16`, each appending its
data to `out`; it returns at the first error. -/
def readValidFloat32.loop (n : Nat) (out : List Nat) (buf : List Nat) :
    Except Error (List Nat) × List Nat :=
  match n with
  | 0 => (.ok out, buf)
  | n + 1 =>
    match readValid16 buf with
    | (.error err, buf) => (.error err, buf)
    | (.ok data, buf) => readValidFloat32.loop n (out ++ data) buf

/-- Function `readValidFloat32`: two valid words, put together big-endian as the bits of a float. -/
def readValidFloat32 (buf : List Nat) : Except Error Nat × List Nat :=
  match readValidFloat32.loop 2 [] buf with
  | (.error err, buf) => (.error err, buf)
  | (.ok out, buf) =>
    match Uint32 out with
    | .error err => (.error err, buf)
    | .ok uint => (.ok (Float32frombits uint), buf)

/-- Function `StartMeasurements`: sets the interval, then starts continuous measurement. -/
def StartMeasurements {σ : Type} (dev : SCD30 σ) (interval : Nat) (s : World σ) :
    Except Error Unit × World σ :=
  withMutex (fun s =>
    match sendCommandArg dev 0x4600 interval s with
    | (.error err, s) => (.error err, s)
    | (.ok _, s) =>
      match sendCommandArg dev 0x0010 0 s with
      | (.error err, s) => (.error err, s)
      | (.ok _, s) => (.ok (), s)) s

/-- Function `StopMeasurements`. -/
def StopMeasurements {σ : Type} (dev : SCD30 σ) (s : World σ) :
    Except Error Unit × World σ :=
  withMutex (fun s => sendCommand dev 0x0104 s) s

/-- Function `GetTemperatureOffset`. -/
def GetTemperatureOffset {σ : Type} (dev : SCD30 σ) (s : World σ) :
    Except Error Nat × World σ :=
  withMutex (fun s =>
    match sendCommand dev 0x5403 s with
    | (.error err, s) => (.error err, s)
    | (.ok _, s) =>
      match readData dev 3 s with
      | (.error err, s) => (.error err, s)
      | (.ok data, s) =>
        match readValid16 data with
        | (.error err, _) => (.error err, s)
        | (.ok data, _) => (Uint16 data, s)) s

/-- Function `SetTemperatureOffset`. -/
def SetTemperatureOffset {σ : Type} (dev : SCD30 σ) (offset : Nat) (s : World σ) :
    Except Error Unit × World σ :=
  withMutex (fun s => sendCommandArg dev 0x5403 offset s) s

/-- The decoding part of `GetMeasurement`, after the eighteen bytes have been read: three
calls of `readValidFloat32` on one buffer, each returning at its error. -/
def GetMeasurement.decode (data : List Nat) : Except Error Measurement :=
  let buf := data
  match readValidFloat32 buf with
  | (.error err, _) => .error err
  | (.ok co2, buf) =>
    match readValidFloat32 buf with
    | (.error err, _) => .error err
    | (.ok temp, buf) =>
      match readValidFloat32 buf with
      | (.error err, _) => .error err
      | (.ok hum, _) => .ok { CO2 := co2, Temperature := temp, Humidity := hum }

/-- Function `GetMeasurement`: three floats in the order CO2, temperature, humidity. -/
def GetMeasurement {σ : Type} (dev : SCD30 σ) (s : World σ) :
    Except Error Measurement × World σ :=
  withMutex (fun s =>
    match sendCommand dev 0x0300 s with
    | (.error err, s) => (.error err, s)
    | (.ok _, s) =>
      match readData dev 18 s with
      | (.error err, s) => (.error err, s)
      | (.ok data, s) => (GetMeasurement.decode data, s)) s

/-- The decoding part of `HasMeasurement`, after the three bytes have been read. -/
def HasMeasurement.decode (data : List Nat) : Except Error Bool := do
  let d2 ← index data 2
  let head ← sliceTo data 2
  if d2 != crc head then
    throw (.crcError (crc head) d2)
  let d1 ← index data 1
  pure (d1 == 1)

/-- Function `HasMeasurement`. -/
def HasMeasurement {σ : Type} (dev : SCD30 σ) (s : World σ) :
    Except Error Bool × World σ :=
  withMutex (fun s =>
    match sendCommand dev 0x0202 s with
    | (.error err, s) => (.error err, s)
    | (.ok _, s) =>
      match readData dev 3 s with
      | (.error err, s) => (.error err, s)
      | (.ok data, s) => (HasMeasurement.decode data, s)) s

/-- Function `SetAutomaticSelfCalibration`. -/
def SetAutomaticSelfCalibration {σ : Type} (dev : SCD30 σ) (value : Nat) (s : World σ) :
    Except Error Unit × World σ :=
  withMutex (fun s => sendCommandArg dev 0x5306 value s) s

/-- Function `SetForcedCalibration`. -/
def SetForcedCalibration {σ : Type} (dev : SCD30 σ) (value : Nat) (s : World σ) :
    Except Error Unit × World σ :=
  withMutex (fun s => sendCommandArg dev 0x5204 value s) s

/-! ## The test double of `scd30_test.go` -/

/-- One expected transaction of `i2ctest.Playback`: address, bytes written, bytes read. -/
structure PlaybackOp where
  Addr : Nat
  W : Option (List Nat)
  R : Option (List Nat)
deriving DecidableEq, Repr

/-- The bus `i2ctest.Playback` used by the tests: its state is the list of expected
transactions not yet played.  A transaction that differs from the expected one (or comes
when none is left) is refused with an error; otherwise the recorded bytes are read. -/
def Playback : i2c.Bus (List PlaybackOp) where
  Tx := fun ops call =>
    match ops with
    | [] => ({ err := some 1, data := [] }, [])
    | op :: rest =>
      if op.Addr ≠ call.addr then ({ err := some 2, data := [] }, op :: rest)
      else if op.W.getD [] ≠ call.w.getD [] then ({ err := some 3, data := [] }, op :: rest)
      else if (op.R.getD []).length ≠ call.r.getD 0 then
        ({ err := some 4, data := [] }, op :: rest)
      else ({ err := none, data := op.R.getD [] }, rest)

/-- A world with the given bus state and no effect yet. -/
def World.init {σ : Type} (bus : σ) : World σ := { bus := bus, trace := [] }

/-! ## Reference checksum -/

/-- One bit of the reference CRC-8: shift left, and subtract the polynomial 0x31 when the
bit shifted out was set. -/
def crc8RefBit (c : Nat) : Nat :=
  if c / 128 % 2 = 1 then (2 * c % 256) ^^^ 0x31 else 2 * c % 256

/-- One byte of the reference CRC-8: xor the byte in, then eight bit steps. -/
def crc8RefByte (c b : Nat) : Nat :=
  crc8RefBit (crc8RefBit (crc8RefBit (crc8RefBit
    (crc8RefBit (crc8RefBit (crc8RefBit (crc8RefBit (c ^^^ b))))))))

/-- The bit-by-bit reference CRC-8 of the specification: polynomial 0x31, initial value
0xFF, no reflection of input or output, final xor 0x00. -/
def crc8Reference : List Nat → Nat → Nat
  | [], c => c ^^^ 0x00
  | b :: rest, c => crc8Reference rest (crc8RefByte c b)

/-! ## Names for the transactions and replies of the protocol -/

/-- The write-only transaction `writeAndWait` issues for `data`. -/
def writeCall {σ : Type} (dev : SCD30 σ) (data : List Nat) : TxCall :=
  { addr := dev.dev.Addr, w := some data, r := none }

/-- The read-only transaction `readData` issues for `len` bytes. -/
def readCall {σ : Type} (dev : SCD30 σ) (len : Nat) : TxCall :=
  { addr := dev.dev.Addr, w := none, r := some len }

/-- The five bytes `sendCommandArg` writes. -/
def argFrame (cmd arg : Nat) : List Nat :=
  [(cmd >>> 8) % 256, cmd % 256, (arg >>> 8) % 256, arg % 256,
    crc [(arg >>> 8) % 256, arg % 256]]

/-- The buffer `readData` returns: `len` bytes, those the bus stored. -/
def readBuffer (len : Nat) (reply : TxReply) : List Nat :=
  (List.range len).map (fun i => reply.data.getD i 0 % 256)

/-- The write of `StartMeasurements` that sets the interval. -/
def intervalCall {σ : Type} (dev : SCD30 σ) (interval : Nat) : TxCall :=
  writeCall dev (argFrame 0x4600 interval)

/-- The write of `StartMeasurements` that starts continuous measurement. -/
def startCall {σ : Type} (dev : SCD30 σ) : TxCall :=
  writeCall dev (argFrame 0x0010 0)

/-- Group `k` of a reply has a valid checksum: byte `3k+2` is the checksum of bytes `3k`
and `3k+1`. -/
def validGroup (r : List Nat) (k : Nat) : Prop :=
  r.getD (3 * k + 2) 0 = crc [r.getD (3 * k) 0, r.getD (3 * k + 1) 0]

/-- The reply of the test `TestGetMeasurement`. -/
def testReply : List Nat :=
  [0x3f, 0x8c, 0xad, 0xcc, 0xcd, 0x94, 0x40, 0xc, 0x75, 0xcc, 0xcd, 0x94, 0x40, 0x53, 0x25,
    0x33, 0x33, 0x88]

/-- The handle `Open` returns on a playback bus. -/
def playbackDev : SCD30 (List PlaybackOp) :=
  { dev := { Addr := 0x61, Bus := Playback } }

/-! ## Properties of traces and frames -/

/-- The settle-delay discipline of a list of effects: a write the bus accepted is followed
at once by a sleep of exactly 4 ms, and a write the bus refused is not followed by a
sleep. -/
def settled : List Effect → Bool
  | [] => true
  | .tx call err :: rest =>
    (match call.w, err, rest with
      | some _, none, .sleep d :: _ => d == 4 * Millisecond
      | some _, none, _ => false
      | some _, some _, .sleep _ :: _ => false
      | _, _, _ => true) && settled rest
  | _ :: rest => settled rest

/-- A write-only transaction: a write buffer that is not empty, and no read buffer. -/
def writeOnly (c : TxCall) : Prop :=
  (∃ data, c.w = some data ∧ data ≠ []) ∧ c.r = none

/-- A read-only transaction of `len` bytes: no write buffer, a read buffer of that
length. -/
def readOnly (len : Nat) (c : TxCall) : Prop :=
  c.w = none ∧ c.r = some len

/-- Flipping bit `i` of a frame, counting eight bits to the byte from the first byte on:
bit `i % 8` of byte `i / 8`. -/
def flipBit (i : Nat) : List Nat → List Nat
  | [] => []
  | b :: rest => if i < 8 then (b ^^^ (1 <<< i)) :: rest else b :: flipBit (i - 8) rest

/-- The part of byte `k` that flipping bit `i` of a frame changes. -/
def flipMask (k i : Nat) : Nat :=
  if i / 8 = k then 1 <<< (i % 8) else 0

/-! ## The checksum refines the bit-by-bit reference -/

/-- The xor of two bytes is a byte. -/
theorem xor_byte_lt {a b : Nat} (ha : a < 256) (hb : b < 256) : a ^^^ b < 256 :=
  Nat.xor_lt_two_pow (n := 8) ha hb

set_option maxRecDepth 100000 in
theorem tableStep_eq_refBit : ∀ c < 256, crc8.tableStep 0x31 c = crc8RefBit c := by
  decide

set_option maxRecDepth 100000 in
theorem refBit_lt : ∀ c < 256, crc8RefBit c < 256 := by
  decide

theorem crcTable_data_getD (n : Nat) (hn : n < 256) :
    crcTable.data.getD n 0 = (crc8.tableStep 0x31)^[8] n := by
  simp [crcTable, crc8.MakeTable, List.getD_eq_getElem?_getD, hn]

theorem table_lookup_eq_refByte (c b : Nat) (hc : c < 256) (hb : b < 256) :
    crcTable.data.getD (c ^^^ b) 0 = crc8RefByte c b := by
  have hx := xor_byte_lt hc hb
  rw [crcTable_data_getD _ hx]
  simp only [Function.iterate_succ, Function.iterate_zero, Function.comp, id, crc8RefByte]
  have h1 := refBit_lt _ hx
  have h2 := refBit_lt _ h1
  have h3 := refBit_lt _ h2
  have h4 := refBit_lt _ h3
  have h5 := refBit_lt _ h4
  have h6 := refBit_lt _ h5
  have h7 := refBit_lt _ h6
  rw [tableStep_eq_refBit _ hx, tableStep_eq_refBit _ h1, tableStep_eq_refBit _ h2,
    tableStep_eq_refBit _ h3, tableStep_eq_refBit _ h4, tableStep_eq_refBit _ h5,
    tableStep_eq_refBit _ h6, tableStep_eq_refBit _ h7]

theorem refByte_lt (c b : Nat) (hc : c < 256) (hb : b < 256) : crc8RefByte c b < 256 := by
  unfold crc8RefByte
  exact refBit_lt _ (refBit_lt _ (refBit_lt _ (refBit_lt _ (refBit_lt _ (refBit_lt _
    (refBit_lt _ (refBit_lt _ (xor_byte_lt hc hb))))))))

theorem update_eq_reference (data : List Nat) (hdata : ∀ b ∈ data, b < 256) :
    ∀ c, c < 256 →
      data.foldl (fun crc d => crcTable.data.getD (crc ^^^ d) 0) c = crc8Reference data c := by
  induction data with
  | nil => intro c _; simp [crc8Reference]
  | cons b rest ih =>
    intro c hc
    have hb : b < 256 := hdata b (by simp)
    simp only [List.foldl_cons, crc8Reference]
    rw [table_lookup_eq_refByte c b hc hb]
    exact ih (fun x hx => hdata x (by simp [hx])) _ (refByte_lt c b hc hb)

theorem crc_eq_update (data : List Nat) :
    crc data = data.foldl (fun crc d => crcTable.data.getD (crc ^^^ d) 0) 0xff := by
  simp [crc, crc8.Checksum, crc8.Complete, crc8.Update, crc8.Init, crcTable, crc8.MakeTable]

/-- C2: for every byte sequence the table-driven `crc` equals the bit-by-bit reference
CRC-8 (polynomial 0x31, initial value 0xFF, no reflection, final xor 0x00); and
`crc [0x00,0x00] = 0x81`, `crc [0x01,0x23] = 0xA0`, `crc [0x00,0x01] = 0xB0`. -/
theorem crc_refines_reference (data : List Nat) (hdata : ∀ b ∈ data, b < 256) :
    crc data = crc8Reference data 0xff ∧
      crc [0x00, 0x00] = 0x81 ∧ crc [0x01, 0x23] = 0xA0 ∧ crc [0x00, 0x01] = 0xB0 := by
  refine ⟨?_, by rfl, by rfl, by rfl⟩
  rw [crc_eq_update]
  exact update_eq_reference data hdata 0xff (by decide)

/-! ## Bus transactions of the protocol engine -/

section engine
variable {σ : Type}

theorem busTxs_append (a b : List Effect) : busTxs (a ++ b) = busTxs a ++ busTxs b := by
  simp [busTxs, List.filterMap_append]

theorem writeAndWait_ok (dev : SCD30 σ) (data : List Nat) (s : World σ)
    (h : (dev.dev.Bus.Tx s.bus (writeCall dev data)).1.err = none) :
    writeAndWait dev data s =
      (.ok (), { bus := (dev.dev.Bus.Tx s.bus (writeCall dev data)).2
                 trace := s.trace ++ [.tx (writeCall dev data) none,
                   .sleep 4000000] }) := by
  simp only [writeCall] at h
  simp [writeAndWait, i2c.Dev.Tx, writeCall, h, Sleep, World.emit, Millisecond]

theorem writeAndWait_err (dev : SCD30 σ) (data : List Nat) (s : World σ) (e : Nat)
    (h : (dev.dev.Bus.Tx s.bus (writeCall dev data)).1.err = some e) :
    writeAndWait dev data s =
      (.error (.busError e), { bus := (dev.dev.Bus.Tx s.bus (writeCall dev data)).2
                               trace := s.trace ++ [.tx (writeCall dev data) (some e)] }) := by
  simp only [writeCall] at h
  simp [writeAndWait, i2c.Dev.Tx, writeCall, h]

theorem sendCommand_eq (dev : SCD30 σ) (cmd : Nat) (s : World σ) :
    sendCommand dev cmd s = writeAndWait dev [(cmd >>> 8) % 256, cmd % 256] s := rfl

theorem sendCommandArg_eq (dev : SCD30 σ) (cmd arg : Nat) (s : World σ) :
    sendCommandArg dev cmd arg s = writeAndWait dev (argFrame cmd arg) s := rfl

theorem readData_ok (dev : SCD30 σ) (len : Nat) (s : World σ)
    (h : (dev.dev.Bus.Tx s.bus (readCall dev len)).1.err = none) :
    readData dev len s =
      (.ok (readBuffer len (dev.dev.Bus.Tx s.bus (readCall dev len)).1),
       { bus := (dev.dev.Bus.Tx s.bus (readCall dev len)).2
         trace := s.trace ++ [.tx (readCall dev len) none] }) := by
  simp only [readCall] at h
  simp [readData, i2c.Dev.Tx, readCall, h, readBuffer]

theorem readData_err (dev : SCD30 σ) (len : Nat) (s : World σ) (e : Nat)
    (h : (dev.dev.Bus.Tx s.bus (readCall dev len)).1.err = some e) :
    readData dev len s =
      (.error (.busError e),
       { bus := (dev.dev.Bus.Tx s.bus (readCall dev len)).2
         trace := s.trace ++ [.tx (readCall dev len) (some e)] }) := by
  simp only [readCall] at h
  simp [readData, i2c.Dev.Tx, readCall, h]

/-- Whatever the bus answers, `writeAndWait` adds exactly one transaction to the trace:
the write of `data`. -/
theorem writeAndWait_busTxs (dev : SCD30 σ) (data : List Nat) (s : World σ) :
    busTxs (writeAndWait dev data s).2.trace = busTxs s.trace ++ [writeCall dev data] := by
  cases h : (dev.dev.Bus.Tx s.bus (writeCall dev data)).1.err with
  | none => rw [writeAndWait_ok dev data s h]; simp [busTxs_append]; simp [busTxs]
  | some e => rw [writeAndWait_err dev data s e h]; simp [busTxs_append]; simp [busTxs]

theorem withMutex_busTxs {α : Type} (body : World σ → α × World σ) (s : World σ) :
    busTxs (withMutex body s).2.trace = busTxs (body (mutexLock s)).2.trace := by
  simp [withMutex, mutexUnlock, World.emit, busTxs_append]; simp [busTxs]

theorem mutexLock_busTxs (s : World σ) : busTxs (mutexLock s).trace = busTxs s.trace := by
  simp [mutexLock, World.emit, busTxs_append]; simp [busTxs]

theorem uint16_hi (v : Nat) (hv : v < 65536) : (v >>> 8) % 256 = v / 256 := by
  rw [Nat.shiftRight_eq_div_pow]; omega

theorem argFrame_eq (cmd v : Nat) (hv : v < 65536) :
    argFrame cmd v =
      [(cmd >>> 8) % 256, cmd % 256, v / 256, v % 256, crc [v / 256, v % 256]] := by
  simp [argFrame, uint16_hi v hv]

end engine

/-! ## Set commands and `StartMeasurements` -/

section commands
variable {σ : Type}

theorem readValid16_frame (d0 d1 c : Nat) :
    readValid16 [d0, d1, c] =
      if crc [d0, d1] != c then (.error (.crcError (crc [d0, d1]) c), [])
      else (.ok [d0, d1], []) := by
  simp [readValid16, Buffer.Next, Buffer.ReadByte]

theorem uint16_bytes (d0 d1 : Nat) (h1 : d1 < 256) :
    Uint16 [d0, d1] = .ok (d0 * 256 + d1) := by
  have h := Nat.mul_add_lt_is_or (i := 8) (b := d1) (by simpa using h1) d0
  simp only [Uint16]
  rw [Nat.lor_comm, Nat.shiftLeft_eq, Nat.mul_comm d0, ← h]

/-- C1 (word round trip): for every 16-bit `v`, the last three bytes `sendCommandArg`
writes for the argument `v` (high byte, low byte, checksum of the two) are accepted by
`readValid16`, and the two bytes it returns decode big-endian to `v`. -/
theorem word_round_trip (v : Nat) (hv : v < 65536) (dev : SCD30 σ) (cmd : Nat)
    (s : World σ) :
    ∃ hi lo c,
      busTxs (sendCommandArg dev cmd v s).2.trace =
        busTxs s.trace ++ [writeCall dev [(cmd >>> 8) % 256, cmd % 256, hi, lo, c]] ∧
      readValid16 [hi, lo, c] = (.ok [hi, lo], []) ∧
      Uint16 [hi, lo] = .ok v := by
  refine ⟨v / 256, v % 256, crc [v / 256, v % 256], ?_, ?_, ?_⟩
  · rw [sendCommandArg_eq, writeAndWait_busTxs, argFrame_eq cmd v hv]
  · simp [readValid16_frame]
  · rw [uint16_bytes _ _ (Nat.mod_lt _ (by decide))]
    congr 1
    omega

/-- C3: for every 16-bit `v`, each of `SetTemperatureOffset`, `SetAutomaticSelfCalibration`
and `SetForcedCalibration` adds exactly one bus transaction, the write of the five bytes
opcode, argument, checksum of the argument (opcodes 0x5403, 0x5306, 0x5204), with no read
buffer; with the two examples of the tests. -/
theorem set_commands_single_write (v : Nat) (hv : v < 65536) (dev : SCD30 σ)
    (s : World σ) :
    busTxs (SetTemperatureOffset dev v s).2.trace =
        busTxs s.trace ++
          [{ addr := dev.dev.Addr,
             w := some [0x54, 0x03, v / 256, v % 256, crc [v / 256, v % 256]],
             r := none }] ∧
      busTxs (SetAutomaticSelfCalibration dev v s).2.trace =
        busTxs s.trace ++
          [{ addr := dev.dev.Addr,
             w := some [0x53, 0x06, v / 256, v % 256, crc [v / 256, v % 256]],
             r := none }] ∧
      busTxs (SetForcedCalibration dev v s).2.trace =
        busTxs s.trace ++
          [{ addr := dev.dev.Addr,
             w := some [0x52, 0x04, v / 256, v % 256, crc [v / 256, v % 256]],
             r := none }] ∧
      busTxs (SetAutomaticSelfCalibration dev 0 s).2.trace =
        busTxs s.trace ++
          [{ addr := dev.dev.Addr, w := some [0x53, 0x06, 0x00, 0x00, 0x81], r := none }] ∧
      busTxs (SetTemperatureOffset dev 0x123 s).2.trace =
        busTxs s.trace ++
          [{ addr := dev.dev.Addr, w := some [0x54, 0x03, 0x01, 0x23, 0xA0], r := none }] := by
  have h0 : crc [0, 0] = 0x81 := by rfl
  have h1 : crc [1, 0x23] = 0xA0 := by rfl
  refine ⟨?_, ?_, ?_, ?_, ?_⟩
  · rw [SetTemperatureOffset, withMutex_busTxs, sendCommandArg_eq, writeAndWait_busTxs,
      mutexLock_busTxs, argFrame_eq _ v hv]
    rfl
  · rw [SetAutomaticSelfCalibration, withMutex_busTxs, sendCommandArg_eq,
      writeAndWait_busTxs, mutexLock_busTxs, argFrame_eq _ v hv]
    rfl
  · rw [SetForcedCalibration, withMutex_busTxs, sendCommandArg_eq, writeAndWait_busTxs,
      mutexLock_busTxs, argFrame_eq _ v hv]
    rfl
  · rw [SetAutomaticSelfCalibration, withMutex_busTxs, sendCommandArg_eq,
      writeAndWait_busTxs, mutexLock_busTxs, argFrame_eq _ 0 (by decide)]
    simp [writeCall, h0]
  · rw [SetTemperatureOffset, withMutex_busTxs, sendCommandArg_eq, writeAndWait_busTxs,
      mutexLock_busTxs, argFrame_eq _ 0x123 (by decide)]
    simp [writeCall, h1]

end commands

section start
variable {σ : Type}

theorem StartMeasurements_ok (dev : SCD30 σ) (i : Nat) (s : World σ)
    (h1 : (dev.dev.Bus.Tx s.bus (intervalCall dev i)).1.err = none)
    (h2 : (dev.dev.Bus.Tx (dev.dev.Bus.Tx s.bus (intervalCall dev i)).2
      (startCall dev)).1.err = none) :
    StartMeasurements dev i s =
      (.ok (),
       { bus := (dev.dev.Bus.Tx (dev.dev.Bus.Tx s.bus (intervalCall dev i)).2
           (startCall dev)).2
         trace := s.trace ++ [.lock, .tx (intervalCall dev i) none, .sleep 4000000,
           .tx (startCall dev) none, .sleep 4000000, .unlock] }) := by
  simp only [StartMeasurements, withMutex, sendCommandArg_eq]
  rw [writeAndWait_ok dev _ (mutexLock s) h1]
  simp only []
  rw [writeAndWait_ok dev _ _ h2]
  simp [mutexLock, mutexUnlock, World.emit, intervalCall, startCall]

theorem StartMeasurements_err_first (dev : SCD30 σ) (i : Nat) (s : World σ) (e : Nat)
    (h1 : (dev.dev.Bus.Tx s.bus (intervalCall dev i)).1.err = some e) :
    StartMeasurements dev i s =
      (.error (.busError e),
       { bus := (dev.dev.Bus.Tx s.bus (intervalCall dev i)).2
         trace := s.trace ++ [.lock, .tx (intervalCall dev i) (some e), .unlock] }) := by
  simp only [StartMeasurements, withMutex, sendCommandArg_eq]
  rw [writeAndWait_err dev _ (mutexLock s) e h1]
  simp [mutexLock, mutexUnlock, World.emit, intervalCall]

theorem StartMeasurements_err_second (dev : SCD30 σ) (i : Nat) (s : World σ) (e : Nat)
    (h1 : (dev.dev.Bus.Tx s.bus (intervalCall dev i)).1.err = none)
    (h2 : (dev.dev.Bus.Tx (dev.dev.Bus.Tx s.bus (intervalCall dev i)).2
      (startCall dev)).1.err = some e) :
    StartMeasurements dev i s =
      (.error (.busError e),
       { bus := (dev.dev.Bus.Tx (dev.dev.Bus.Tx s.bus (intervalCall dev i)).2
           (startCall dev)).2
         trace := s.trace ++ [.lock, .tx (intervalCall dev i) none, .sleep 4000000,
           .tx (startCall dev) (some e), .unlock] }) := by
  simp only [StartMeasurements, withMutex, sendCommandArg_eq]
  rw [writeAndWait_ok dev _ (mutexLock s) h1]
  simp only []
  rw [writeAndWait_err dev _ _ e h2]
  simp [mutexLock, mutexUnlock, World.emit, intervalCall, startCall]

theorem startCall_eq (dev : SCD30 σ) :
    startCall dev =
      { addr := dev.dev.Addr, w := some [0x00, 0x10, 0x00, 0x00, 0x81], r := none } := by
  have h0 : crc [0, 0] = 0x81 := by rfl
  simp [startCall, writeCall, argFrame, h0]

theorem intervalCall_eq (dev : SCD30 σ) (i : Nat) (hi : i < 65536) :
    intervalCall dev i =
      { addr := dev.dev.Addr,
        w := some [0x46, 0x00, i / 256, i % 256, crc [i / 256, i % 256]], r := none } := by
  simp [intervalCall, writeCall, argFrame_eq _ i hi]

/-- C4: for every 16-bit interval `i`, when the bus accepts both writes,
`StartMeasurements i` returns no error and adds exactly two bus transactions, both writes,
in this order: `[0x46,0x00,iHi,iLo,crc [iHi,iLo]]` then `[0x00,0x10,0x00,0x00,0x81]`; for
`i = 0x0123` the first write is `[0x46,0x00,0x01,0x23,0xA0]`. -/
theorem StartMeasurements_two_writes (dev : SCD30 σ) (i : Nat) (hi : i < 65536)
    (s : World σ)
    (h1 : (dev.dev.Bus.Tx s.bus
      { addr := dev.dev.Addr,
        w := some [0x46, 0x00, i / 256, i % 256, crc [i / 256, i % 256]],
        r := none }).1.err = none)
    (h2 : (dev.dev.Bus.Tx
      (dev.dev.Bus.Tx s.bus
        { addr := dev.dev.Addr,
          w := some [0x46, 0x00, i / 256, i % 256, crc [i / 256, i % 256]],
          r := none }).2
      { addr := dev.dev.Addr, w := some [0x00, 0x10, 0x00, 0x00, 0x81],
        r := none }).1.err = none) :
    (StartMeasurements dev i s).1 = .ok () ∧
      busTxs (StartMeasurements dev i s).2.trace =
        busTxs s.trace ++
          [{ addr := dev.dev.Addr,
             w := some [0x46, 0x00, i / 256, i % 256, crc [i / 256, i % 256]], r := none },
           { addr := dev.dev.Addr, w := some [0x00, 0x10, 0x00, 0x00, 0x81], r := none }] ∧
      (i = 0x0123 →
        [0x46, 0x00, i / 256, i % 256, crc [i / 256, i % 256]] =
          [0x46, 0x00, 0x01, 0x23, 0xA0]) := by
  rw [← intervalCall_eq dev i hi] at h1 h2
  rw [← startCall_eq dev] at h2
  rw [StartMeasurements_ok dev i s h1 h2, ← intervalCall_eq dev i hi, ← startCall_eq dev]
  refine ⟨rfl, ?_, ?_⟩
  · simp [busTxs_append]; simp [busTxs]
  · intro h
    subst h
    have h1 : crc [1, 0x23] = 0xA0 := by rfl
    simp [h1]

/-- C10 (partial failure of `StartMeasurements`): if the bus rejects the first write with
error `e`, the result is `e` and the only transaction is that write (the start write is
never issued); if the first write succeeds and the second is rejected with `e`, the
result is `e` and the transactions are exactly those two writes (no rollback follows). -/
theorem StartMeasurements_partial_failure (dev : SCD30 σ) (i : Nat) (s : World σ)
    (e : Nat) :
    ((dev.dev.Bus.Tx s.bus (intervalCall dev i)).1.err = some e →
        (StartMeasurements dev i s).1 = .error (.busError e) ∧
        busTxs (StartMeasurements dev i s).2.trace =
          busTxs s.trace ++ [intervalCall dev i]) ∧
      ((dev.dev.Bus.Tx s.bus (intervalCall dev i)).1.err = none →
        (dev.dev.Bus.Tx (dev.dev.Bus.Tx s.bus (intervalCall dev i)).2
          (startCall dev)).1.err = some e →
        (StartMeasurements dev i s).1 = .error (.busError e) ∧
        busTxs (StartMeasurements dev i s).2.trace =
          busTxs s.trace ++ [intervalCall dev i, startCall dev]) := by
  constructor
  · intro h1
    rw [StartMeasurements_err_first dev i s e h1]
    refine ⟨rfl, ?_⟩
    simp [busTxs_append]; simp [busTxs]
  · intro h1 h2
    rw [StartMeasurements_err_second dev i s e h1 h2]
    refine ⟨rfl, ?_⟩
    simp [busTxs_append]; simp [busTxs]

end start

/-! ## Reading checksummed words -/

section reading
variable {σ : Type}

theorem xor_ne_self (x k : Nat) : x ^^^ (1 <<< k) ≠ x := by
  intro h
  have h2 : x ^^^ (x ^^^ (1 <<< k)) = x ^^^ x := by rw [h]
  rw [Nat.xor_cancel_left, Nat.xor_self] at h2
  have h3 : 0 < 1 <<< k := by rw [Nat.one_shiftLeft]; exact Nat.two_pow_pos k
  omega

/-- C9: for all data bytes `d0`, `d1` and every bit position `k`, `readValid16` on the
frame `[d0, d1, crc [d0,d1]` with bit `k` flipped`]` fails with the checksum error and
returns no data; and on any three-byte frame it succeeds if and only if the third byte is
the checksum of the first two. -/
theorem readValid16_checksum_mismatch (d0 d1 k : Nat) :
    readValid16 [d0, d1, crc [d0, d1] ^^^ (1 <<< k)] =
        (.error (.crcError (crc [d0, d1]) (crc [d0, d1] ^^^ (1 <<< k))), []) ∧
      ∀ c, (∃ data, (readValid16 [d0, d1, c]).1 = .ok data) ↔ c = crc [d0, d1] := by
  constructor
  · rw [readValid16_frame]
    simp [(xor_ne_self (crc [d0, d1]) k).symm]
  · intro c
    rw [readValid16_frame]
    by_cases h : crc [d0, d1] = c
    · simp [h]
    · have h2 : ¬ c = crc [d0, d1] := fun h3 => h h3.symm
      simp [h, h2]

end reading

/-! ## `GetTemperatureOffset` and `HasMeasurement` -/

section getters
variable {σ : Type}

theorem readBuffer_three (reply : TxReply) (d0 d1 c : Nat) (h0 : d0 < 256) (h1 : d1 < 256)
    (hc : c < 256) (h : reply.data = [d0, d1, c]) : readBuffer 3 reply = [d0, d1, c] := by
  have hr : List.range 3 = [0, 1, 2] := by decide
  simp [readBuffer, hr, h, Nat.mod_eq_of_lt, h0, h1, hc]

/-- The result of a bare command followed by a read of `len` bytes, as the three getters
perform it: the error of the write, else the error of the read, else the buffer read. -/
theorem command_then_read_ok (dev : SCD30 σ) (cmd len : Nat) (s : World σ)
    (h1 : (dev.dev.Bus.Tx s.bus
      (writeCall dev [(cmd >>> 8) % 256, cmd % 256])).1.err = none)
    (h2 : (dev.dev.Bus.Tx
      (dev.dev.Bus.Tx s.bus (writeCall dev [(cmd >>> 8) % 256, cmd % 256])).2
      (readCall dev len)).1.err = none) :
    sendCommand dev cmd (mutexLock s) =
        (.ok (),
         { bus := (dev.dev.Bus.Tx s.bus (writeCall dev [(cmd >>> 8) % 256, cmd % 256])).2
           trace := s.trace ++ [.lock,
             .tx (writeCall dev [(cmd >>> 8) % 256, cmd % 256]) none, .sleep 4000000] }) ∧
      readData dev len
          { bus := (dev.dev.Bus.Tx s.bus (writeCall dev [(cmd >>> 8) % 256, cmd % 256])).2
            trace := s.trace ++ [.lock,
              .tx (writeCall dev [(cmd >>> 8) % 256, cmd % 256]) none, .sleep 4000000] } =
        (.ok (readBuffer len (dev.dev.Bus.Tx
            (dev.dev.Bus.Tx s.bus (writeCall dev [(cmd >>> 8) % 256, cmd % 256])).2
            (readCall dev len)).1),
         { bus := (dev.dev.Bus.Tx
             (dev.dev.Bus.Tx s.bus (writeCall dev [(cmd >>> 8) % 256, cmd % 256])).2
             (readCall dev len)).2
           trace := s.trace ++ [.lock,
             .tx (writeCall dev [(cmd >>> 8) % 256, cmd % 256]) none, .sleep 4000000,
             .tx (readCall dev len) none] }) := by
  constructor
  · rw [sendCommand_eq, writeAndWait_ok dev _ (mutexLock s) h1]
    simp [mutexLock, World.emit]
  · rw [readData_ok dev len _ h2]
    simp

theorem GetTemperatureOffset_ok (dev : SCD30 σ) (s : World σ)
    (h1 : (dev.dev.Bus.Tx s.bus (writeCall dev [0x54, 0x03])).1.err = none)
    (h2 : (dev.dev.Bus.Tx (dev.dev.Bus.Tx s.bus (writeCall dev [0x54, 0x03])).2
      (readCall dev 3)).1.err = none) :
    GetTemperatureOffset dev s =
      ((match readValid16 (readBuffer 3 (dev.dev.Bus.Tx
            (dev.dev.Bus.Tx s.bus (writeCall dev [0x54, 0x03])).2 (readCall dev 3)).1) with
        | (.error err, _) => .error err
        | (.ok data, _) => Uint16 data),
       { bus := (dev.dev.Bus.Tx (dev.dev.Bus.Tx s.bus (writeCall dev [0x54, 0x03])).2
           (readCall dev 3)).2
         trace := s.trace ++ [.lock, .tx (writeCall dev [0x54, 0x03]) none, .sleep 4000000,
           .tx (readCall dev 3) none, .unlock] }) := by
  have hcmd : [(0x5403 >>> 8) % 256, 0x5403 % 256] = [0x54, 0x03] := by decide
  have h := command_then_read_ok dev 0x5403 3 s (by rw [hcmd]; exact h1)
    (by rw [hcmd]; exact h2)
  rw [hcmd] at h
  simp only [GetTemperatureOffset, withMutex]
  rw [h.1]
  simp only []
  rw [h.2]
  simp only []
  generalize readValid16 _ = rv
  rcases rv with ⟨_ | _, _⟩ <;> simp [mutexUnlock, World.emit]

theorem HasMeasurement_ok (dev : SCD30 σ) (s : World σ)
    (h1 : (dev.dev.Bus.Tx s.bus (writeCall dev [0x02, 0x02])).1.err = none)
    (h2 : (dev.dev.Bus.Tx (dev.dev.Bus.Tx s.bus (writeCall dev [0x02, 0x02])).2
      (readCall dev 3)).1.err = none) :
    HasMeasurement dev s =
      (HasMeasurement.decode (readBuffer 3 (dev.dev.Bus.Tx
            (dev.dev.Bus.Tx s.bus (writeCall dev [0x02, 0x02])).2 (readCall dev 3)).1),
       { bus := (dev.dev.Bus.Tx (dev.dev.Bus.Tx s.bus (writeCall dev [0x02, 0x02])).2
           (readCall dev 3)).2
         trace := s.trace ++ [.lock, .tx (writeCall dev [0x02, 0x02]) none, .sleep 4000000,
           .tx (readCall dev 3) none, .unlock] }) := by
  have hcmd : [(0x0202 >>> 8) % 256, 0x0202 % 256] = [0x02, 0x02] := by decide
  have h := command_then_read_ok dev 0x0202 3 s (by rw [hcmd]; exact h1)
    (by rw [hcmd]; exact h2)
  rw [hcmd] at h
  simp only [HasMeasurement, withMutex]
  rw [h.1]
  simp only []
  rw [h.2]
  simp [mutexUnlock, World.emit]

theorem HasMeasurement_decode_frame (b0 b1 c : Nat) :
    HasMeasurement.decode [b0, b1, c] =
      if c = crc [b0, b1] then .ok (b1 == 1)
      else .error (.crcError (crc [b0, b1]) c) := by
  by_cases h : c = crc [b0, b1]
  · simp [HasMeasurement.decode, index, sliceTo, h, bind, Except.bind, pure, Except.pure]
  · simp [HasMeasurement.decode, index, sliceTo, h, bind, Except.bind, pure, Except.pure,
      throw, throwThe, MonadExceptOf.throw]

/-- C5: when the bus accepts the write and the read, `GetTemperatureOffset` adds exactly
two transactions, the write of `[0x54,0x03]` and then a read of 3 bytes; for every reply
`[d0, d1, c]` it returns `d0*256 + d1` when `c = crc [d0, d1]` and the checksum error when
`c` differs; for the reply `[0x01,0x23,0xA0]` it returns `0x0123`. -/
theorem GetTemperatureOffset_reply (dev : SCD30 σ) (s : World σ) (d0 d1 c : Nat)
    (hd0 : d0 < 256) (hd1 : d1 < 256) (hc : c < 256)
    (h1 : (dev.dev.Bus.Tx s.bus
      { addr := dev.dev.Addr, w := some [0x54, 0x03], r := none }).1.err = none)
    (h2 : (dev.dev.Bus.Tx
      (dev.dev.Bus.Tx s.bus { addr := dev.dev.Addr, w := some [0x54, 0x03], r := none }).2
      { addr := dev.dev.Addr, w := none, r := some 3 }).1.err = none)
    (h3 : (dev.dev.Bus.Tx
      (dev.dev.Bus.Tx s.bus { addr := dev.dev.Addr, w := some [0x54, 0x03], r := none }).2
      { addr := dev.dev.Addr, w := none, r := some 3 }).1.data = [d0, d1, c]) :
    busTxs (GetTemperatureOffset dev s).2.trace =
        busTxs s.trace ++
          [{ addr := dev.dev.Addr, w := some [0x54, 0x03], r := none },
           { addr := dev.dev.Addr, w := none, r := some 3 }] ∧
      (c = crc [d0, d1] → (GetTemperatureOffset dev s).1 = .ok (d0 * 256 + d1)) ∧
      (c ≠ crc [d0, d1] →
        (GetTemperatureOffset dev s).1 = .error (.crcError (crc [d0, d1]) c)) ∧
      ([d0, d1, c] = [0x01, 0x23, 0xA0] → (GetTemperatureOffset dev s).1 = .ok 0x0123) := by
  have hw : writeCall dev [0x54, 0x03] =
      { addr := dev.dev.Addr, w := some [0x54, 0x03], r := none } := rfl
  have hr : readCall dev 3 = { addr := dev.dev.Addr, w := none, r := some 3 } := rfl
  rw [← hw] at h1 h2 h3
  rw [← hr] at h2 h3
  rw [GetTemperatureOffset_ok dev s h1 h2, readBuffer_three _ d0 d1 c hd0 hd1 hc h3,
    readValid16_frame, ← hw, ← hr]
  have hgood : c = crc [d0, d1] →
      (match (if crc [d0, d1] != c then
            ((Except.error (Error.crcError (crc [d0, d1]) c) : Except Error (List Nat)),
              ([] : List Nat))
          else (Except.ok [d0, d1], [])) with
        | (.error err, _) => Except.error err
        | (.ok data, _) => Uint16 data) = .ok (d0 * 256 + d1) := by
    intro h
    simp [h, uint16_bytes d0 d1 hd1]
  refine ⟨?_, hgood, ?_, ?_⟩
  · simp [busTxs_append]; simp [busTxs]
  · intro h
    have h2 : ¬ crc [d0, d1] = c := fun h3 => h h3.symm
    simp [h2]
  · intro h
    have hcrc : crc [1, 0x23] = 0xA0 := by rfl
    simp only [List.cons.injEq, and_true] at h
    obtain ⟨rfl, rfl, rfl⟩ := h
    exact hgood hcrc.symm

/-- C6: when the bus accepts the write and the read, `HasMeasurement` adds exactly two
transactions, the write of `[0x02,0x02]` and then a read of 3 bytes; for every reply
`[b0, b1, c]` it fails with the checksum error when `c` differs from `crc [b0, b1]`, and
otherwise succeeds with a result that is true if and only if `b1 = 1`, whatever `b0` is;
for the reply `[0x00,0x01,0xB0]` it returns true. -/
theorem HasMeasurement_reply (dev : SCD30 σ) (s : World σ) (b0 b1 c : Nat)
    (hb0 : b0 < 256) (hb1 : b1 < 256) (hc : c < 256)
    (h1 : (dev.dev.Bus.Tx s.bus
      { addr := dev.dev.Addr, w := some [0x02, 0x02], r := none }).1.err = none)
    (h2 : (dev.dev.Bus.Tx
      (dev.dev.Bus.Tx s.bus { addr := dev.dev.Addr, w := some [0x02, 0x02], r := none }).2
      { addr := dev.dev.Addr, w := none, r := some 3 }).1.err = none)
    (h3 : (dev.dev.Bus.Tx
      (dev.dev.Bus.Tx s.bus { addr := dev.dev.Addr, w := some [0x02, 0x02], r := none }).2
      { addr := dev.dev.Addr, w := none, r := some 3 }).1.data = [b0, b1, c]) :
    busTxs (HasMeasurement dev s).2.trace =
        busTxs s.trace ++
          [{ addr := dev.dev.Addr, w := some [0x02, 0x02], r := none },
           { addr := dev.dev.Addr, w := none, r := some 3 }] ∧
      (c ≠ crc [b0, b1] →
        (HasMeasurement dev s).1 = .error (.crcError (crc [b0, b1]) c)) ∧
      (c = crc [b0, b1] →
        ∃ ready, (HasMeasurement dev s).1 = .ok ready ∧ (ready = true ↔ b1 = 1)) ∧
      ([b0, b1, c] = [0x00, 0x01, 0xB0] → (HasMeasurement dev s).1 = .ok true) := by
  have hw : writeCall dev [0x02, 0x02] =
      { addr := dev.dev.Addr, w := some [0x02, 0x02], r := none } := rfl
  have hr : readCall dev 3 = { addr := dev.dev.Addr, w := none, r := some 3 } := rfl
  rw [← hw] at h1 h2 h3
  rw [← hr] at h2 h3
  rw [HasMeasurement_ok dev s h1 h2, readBuffer_three _ b0 b1 c hb0 hb1 hc h3,
    HasMeasurement_decode_frame, ← hw, ← hr]
  refine ⟨?_, ?_, ?_, ?_⟩
  · simp [busTxs_append]; simp [busTxs]
  · intro h
    simp [h]
  · intro h
    exact ⟨b1 == 1, by simp [h], by simp⟩
  · intro h
    have hcrc : crc [0, 1] = 0xB0 := by rfl
    simp only [List.cons.injEq, and_true] at h
    obtain ⟨rfl, rfl, rfl⟩ := h
    simp [hcrc]

end getters

/-! ## `readValidFloat32` and `GetMeasurement` -/

section measurement
variable {σ : Type}

theorem uint32_bytes (b0 b1 b2 b3 : Nat) (h1 : b1 < 256) (h2 : b2 < 256) (h3 : b3 < 256) :
    Uint32 [b0, b1, b2, b3] = .ok (b0 * 16777216 + b1 * 65536 + b2 * 256 + b3) := by
  have e1 := Nat.mul_add_lt_is_or (i := 8) (b := b3) (by simpa using h3) b2
  have l2 : 2 ^ 8 * b2 + b3 < 2 ^ 16 := by norm_num; omega
  have e2 := Nat.mul_add_lt_is_or (i := 16) l2 b1
  have l3 : 2 ^ 16 * b1 + (2 ^ 8 * b2 + b3) < 2 ^ 24 := by norm_num; omega
  have e3 := Nat.mul_add_lt_is_or (i := 24) l3 b0
  simp only [Uint32, Nat.shiftLeft_eq]
  congr 1
  rw [Nat.lor_comm b3, Nat.mul_comm b2, ← e1, Nat.lor_comm _ (b1 * 2 ^ 16), Nat.mul_comm b1,
    ← e2, Nat.lor_comm _ (b0 * 2 ^ 24), Nat.mul_comm b0, ← e3]
  norm_num
  omega

/-- What `readValidFloat32` does on a buffer that holds at least two groups: it stops at the
first group whose checksum is wrong, leaving the rest of the buffer unread. -/
theorem readValidFloat32_groups (d0 d1 c0 d2 d3 c1 : Nat) (rest : List Nat) :
    readValidFloat32 (d0 :: d1 :: c0 :: d2 :: d3 :: c1 :: rest) =
      if c0 ≠ crc [d0, d1] then
        (.error (.crcError (crc [d0, d1]) c0), d2 :: d3 :: c1 :: rest)
      else if c1 ≠ crc [d2, d3] then
        (.error (.crcError (crc [d2, d3]) c1), rest)
      else
        (match Uint32 [d0, d1, d2, d3] with
          | .error err => (.error err, rest)
          | .ok uint => (.ok (Float32frombits uint), rest)) := by
  by_cases h0 : c0 = crc [d0, d1]
  · by_cases h1 : c1 = crc [d2, d3]
    · simp [readValidFloat32, readValidFloat32.loop, readValid16, Buffer.Next,
        Buffer.ReadByte, h0, h1]
    · have h1b : ¬ crc [d2, d3] = c1 := fun h => h1 h.symm
      simp [readValidFloat32, readValidFloat32.loop, readValid16, Buffer.Next,
        Buffer.ReadByte, h0, h1, h1b]
  · have h0b : ¬ crc [d0, d1] = c0 := fun h => h0 h.symm
    simp [readValidFloat32, readValidFloat32.loop, readValid16, Buffer.Next,
      Buffer.ReadByte, h0, h0b]

theorem GetMeasurement_ok (dev : SCD30 σ) (s : World σ)
    (h1 : (dev.dev.Bus.Tx s.bus (writeCall dev [0x03, 0x00])).1.err = none)
    (h2 : (dev.dev.Bus.Tx (dev.dev.Bus.Tx s.bus (writeCall dev [0x03, 0x00])).2
      (readCall dev 18)).1.err = none) :
    GetMeasurement dev s =
      (GetMeasurement.decode (readBuffer 18 (dev.dev.Bus.Tx
            (dev.dev.Bus.Tx s.bus (writeCall dev [0x03, 0x00])).2 (readCall dev 18)).1),
       { bus := (dev.dev.Bus.Tx (dev.dev.Bus.Tx s.bus (writeCall dev [0x03, 0x00])).2
           (readCall dev 18)).2
         trace := s.trace ++ [.lock, .tx (writeCall dev [0x03, 0x00]) none, .sleep 4000000,
           .tx (readCall dev 18) none, .unlock] }) := by
  have hcmd : [(0x0300 >>> 8) % 256, 0x0300 % 256] = [0x03, 0x00] := by decide
  have h := command_then_read_ok dev 0x0300 18 s (by rw [hcmd]; exact h1)
    (by rw [hcmd]; exact h2)
  rw [hcmd] at h
  simp only [GetMeasurement, withMutex]
  rw [h.1]
  simp only []
  rw [h.2]
  simp [mutexUnlock, World.emit]

theorem length_eighteen (r : List Nat) (hlen : r.length = 18) :
    ∃ a0 a1 a2 a3 a4 a5 a6 a7 a8 a9 a10 a11 a12 a13 a14 a15 a16 a17,
      r = [a0, a1, a2, a3, a4, a5, a6, a7, a8, a9, a10, a11, a12, a13, a14, a15, a16, a17] := by
  match r, hlen with
  | [a0, a1, a2, a3, a4, a5, a6, a7, a8, a9, a10, a11, a12, a13, a14, a15, a16, a17], _ =>
    exact ⟨a0, a1, a2, a3, a4, a5, a6, a7, a8, a9, a10, a11, a12, a13, a14, a15, a16, a17,
      rfl⟩

theorem readBuffer_eighteen (reply : TxReply) (r : List Nat) (hlen : r.length = 18)
    (hbytes : ∀ b ∈ r, b < 256) (h : reply.data = r) : readBuffer 18 reply = r := by
  obtain ⟨a0, a1, a2, a3, a4, a5, a6, a7, a8, a9, a10, a11, a12, a13, a14, a15, a16, a17,
    rfl⟩ := length_eighteen r hlen
  have hr : List.range 18 = [0, 1, 2, 3, 4, 5, 6, 7, 8, 9, 10, 11, 12, 13, 14, 15, 16, 17] := by
    decide
  simp only [List.mem_cons, List.mem_singleton, forall_eq_or_imp, forall_eq] at hbytes
  simp [readBuffer, hr, h, Nat.mod_eq_of_lt, hbytes]

/-- The decoding of a full reply: the checksum error of the first invalid group, or, when
all six groups are valid, the three bit patterns. -/
theorem GetMeasurement_decode_eq
    (a0 a1 a2 a3 a4 a5 a6 a7 a8 a9 a10 a11 a12 a13 a14 a15 a16 a17 : Nat)
    (h1 : a1 < 256) (h3 : a3 < 256) (h4 : a4 < 256) (h7 : a7 < 256) (h9 : a9 < 256)
    (h10 : a10 < 256) (h13 : a13 < 256) (h15 : a15 < 256) (h16 : a16 < 256) :
    GetMeasurement.decode
        [a0, a1, a2, a3, a4, a5, a6, a7, a8, a9, a10, a11, a12, a13, a14, a15, a16, a17] =
      if a2 ≠ crc [a0, a1] then .error (.crcError (crc [a0, a1]) a2)
      else if a5 ≠ crc [a3, a4] then .error (.crcError (crc [a3, a4]) a5)
      else if a8 ≠ crc [a6, a7] then .error (.crcError (crc [a6, a7]) a8)
      else if a11 ≠ crc [a9, a10] then .error (.crcError (crc [a9, a10]) a11)
      else if a14 ≠ crc [a12, a13] then .error (.crcError (crc [a12, a13]) a14)
      else if a17 ≠ crc [a15, a16] then .error (.crcError (crc [a15, a16]) a17)
      else .ok
        { CO2 := a0 * 16777216 + a1 * 65536 + a3 * 256 + a4
          Temperature := a6 * 16777216 + a7 * 65536 + a9 * 256 + a10
          Humidity := a12 * 16777216 + a13 * 65536 + a15 * 256 + a16 } := by
  simp only [GetMeasurement.decode]
  rw [readValidFloat32_groups, uint32_bytes a0 a1 a3 a4 h1 h3 h4]
  by_cases g0 : a2 = crc [a0, a1]
  swap
  · simp [g0]
  by_cases g1 : a5 = crc [a3, a4]
  swap
  · simp [g0, g1]
  simp only [g0, g1, ne_eq, not_true_eq_false, if_false]
  rw [readValidFloat32_groups, uint32_bytes a6 a7 a9 a10 h7 h9 h10]
  by_cases g2 : a8 = crc [a6, a7]
  swap
  · simp [g2]
  by_cases g3 : a11 = crc [a9, a10]
  swap
  · simp [g2, g3]
  simp only [g2, g3, ne_eq, not_true_eq_false, if_false]
  rw [readValidFloat32_groups, uint32_bytes a12 a13 a15 a16 h13 h15 h16]
  by_cases g4 : a14 = crc [a12, a13]
  swap
  · simp [g4]
  by_cases g5 : a17 = crc [a15, a16]
  swap
  · simp [g4, g5]
  simp [g4, g5, Float32frombits]

/-- On a reply of eighteen bytes, the decoding succeeds exactly when all six groups are
valid; it then yields the three big-endian bit patterns, and otherwise a checksum error. -/
theorem GetMeasurement_decode_spec (r : List Nat) (hlen : r.length = 18)
    (hbytes : ∀ b ∈ r, b < 256) :
    ((∀ k < 6, validGroup r k) →
      GetMeasurement.decode r = .ok
        { CO2 := r.getD 0 0 * 16777216 + r.getD 1 0 * 65536 + r.getD 3 0 * 256 + r.getD 4 0
          Temperature :=
            r.getD 6 0 * 16777216 + r.getD 7 0 * 65536 + r.getD 9 0 * 256 + r.getD 10 0
          Humidity :=
            r.getD 12 0 * 16777216 + r.getD 13 0 * 65536 + r.getD 15 0 * 256
              + r.getD 16 0 }) ∧
    ((∃ k, k < 6 ∧ ¬ validGroup r k) →
      ∃ expected got, GetMeasurement.decode r = .error (.crcError expected got)) := by
  obtain ⟨a0, a1, a2, a3, a4, a5, a6, a7, a8, a9, a10, a11, a12, a13, a14, a15, a16, a17,
    rfl⟩ := length_eighteen r hlen
  simp only [List.mem_cons, List.mem_singleton, forall_eq_or_imp, forall_eq] at hbytes
  have hd := GetMeasurement_decode_eq a0 a1 a2 a3 a4 a5 a6 a7 a8 a9 a10 a11 a12 a13 a14 a15
    a16 a17 (by tauto) (by tauto) (by tauto) (by tauto) (by tauto) (by tauto) (by tauto)
    (by tauto) (by tauto)
  rw [hd]
  constructor
  · intro hv
    have v0 := hv 0 (by decide)
    have v1 := hv 1 (by decide)
    have v2 := hv 2 (by decide)
    have v3 := hv 3 (by decide)
    have v4 := hv 4 (by decide)
    have v5 := hv 5 (by decide)
    simp only [validGroup] at v0 v1 v2 v3 v4 v5
    simp at v0 v1 v2 v3 v4 v5
    simp [v0, v1, v2, v3, v4, v5]
  · rintro ⟨k, hk, hv⟩
    by_cases g0 : a2 = crc [a0, a1]
    swap
    · exact ⟨crc [a0, a1], a2, by simp [g0]⟩
    by_cases g1 : a5 = crc [a3, a4]
    swap
    · exact ⟨crc [a3, a4], a5, by simp [g0, g1]⟩
    by_cases g2 : a8 = crc [a6, a7]
    swap
    · exact ⟨crc [a6, a7], a8, by simp [g0, g1, g2]⟩
    by_cases g3 : a11 = crc [a9, a10]
    swap
    · exact ⟨crc [a9, a10], a11, by simp [g0, g1, g2, g3]⟩
    by_cases g4 : a14 = crc [a12, a13]
    swap
    · exact ⟨crc [a12, a13], a14, by simp [g0, g1, g2, g3, g4]⟩
    by_cases g5 : a17 = crc [a15, a16]
    swap
    · exact ⟨crc [a15, a16], a17, by simp [g0, g1, g2, g3, g4, g5]⟩
    exfalso
    apply hv
    interval_cases k <;> simp [validGroup, g0, g1, g2, g3, g4, g5]

/-- C7: when the bus accepts the write and the read, `GetMeasurement` adds exactly two
transactions, the write of `[0x03,0x00]` and then a read of 18 bytes `r`; when all six
groups of `r` are valid it returns the Measurement whose bit patterns are the big-endian
words `r[0],r[1],r[3],r[4]` (CO2), `r[6],r[7],r[9],r[10]` (temperature) and
`r[12],r[13],r[15],r[16]` (humidity); for the reply of `TestGetMeasurement` these are
0x3F8CCCCD, 0x400CCCCD and 0x40533333. -/
theorem GetMeasurement_reply (dev : SCD30 σ) (s : World σ) (r : List Nat)
    (hlen : r.length = 18) (hbytes : ∀ b ∈ r, b < 256)
    (h1 : (dev.dev.Bus.Tx s.bus
      { addr := dev.dev.Addr, w := some [0x03, 0x00], r := none }).1.err = none)
    (h2 : (dev.dev.Bus.Tx
      (dev.dev.Bus.Tx s.bus { addr := dev.dev.Addr, w := some [0x03, 0x00], r := none }).2
      { addr := dev.dev.Addr, w := none, r := some 18 }).1.err = none)
    (h3 : (dev.dev.Bus.Tx
      (dev.dev.Bus.Tx s.bus { addr := dev.dev.Addr, w := some [0x03, 0x00], r := none }).2
      { addr := dev.dev.Addr, w := none, r := some 18 }).1.data = r)
    (hvalid : ∀ k < 6, validGroup r k) :
    busTxs (GetMeasurement dev s).2.trace =
        busTxs s.trace ++
          [{ addr := dev.dev.Addr, w := some [0x03, 0x00], r := none },
           { addr := dev.dev.Addr, w := none, r := some 18 }] ∧
      (GetMeasurement dev s).1 = .ok
        { CO2 := r.getD 0 0 * 16777216 + r.getD 1 0 * 65536 + r.getD 3 0 * 256 + r.getD 4 0
          Temperature :=
            r.getD 6 0 * 16777216 + r.getD 7 0 * 65536 + r.getD 9 0 * 256 + r.getD 10 0
          Humidity :=
            r.getD 12 0 * 16777216 + r.getD 13 0 * 65536 + r.getD 15 0 * 256
              + r.getD 16 0 } ∧
      (r = testReply →
        (GetMeasurement dev s).1 = .ok
          { CO2 := 0x3F8CCCCD, Temperature := 0x400CCCCD, Humidity := 0x40533333 }) := by
  have hw : writeCall dev [0x03, 0x00] =
      { addr := dev.dev.Addr, w := some [0x03, 0x00], r := none } := rfl
  have hr : readCall dev 18 = { addr := dev.dev.Addr, w := none, r := some 18 } := rfl
  rw [← hw] at h1 h2 h3
  rw [← hr] at h2 h3
  rw [GetMeasurement_ok dev s h1 h2, readBuffer_eighteen _ r hlen hbytes h3, ← hw, ← hr,
    (GetMeasurement_decode_spec r hlen hbytes).1 hvalid]
  refine ⟨?_, rfl, ?_⟩
  · simp [busTxs_append]; simp [busTxs]
  · intro h
    subst h
    rfl

/-- C8 (no partial result): for every reply of 18 bytes in which some group has a wrong
checksum, `GetMeasurement` returns a checksum error (and so no Measurement), whichever
groups before it were valid; it returns a Measurement only if all six groups are valid. -/
theorem GetMeasurement_no_partial_result (dev : SCD30 σ) (s : World σ) (r : List Nat)
    (hlen : r.length = 18) (hbytes : ∀ b ∈ r, b < 256)
    (h1 : (dev.dev.Bus.Tx s.bus
      { addr := dev.dev.Addr, w := some [0x03, 0x00], r := none }).1.err = none)
    (h2 : (dev.dev.Bus.Tx
      (dev.dev.Bus.Tx s.bus { addr := dev.dev.Addr, w := some [0x03, 0x00], r := none }).2
      { addr := dev.dev.Addr, w := none, r := some 18 }).1.err = none)
    (h3 : (dev.dev.Bus.Tx
      (dev.dev.Bus.Tx s.bus { addr := dev.dev.Addr, w := some [0x03, 0x00], r := none }).2
      { addr := dev.dev.Addr, w := none, r := some 18 }).1.data = r) :
    ((∃ k, k < 6 ∧ ¬ validGroup r k) →
        ∃ expected got, (GetMeasurement dev s).1 = .error (.crcError expected got)) ∧
      ((∃ m, (GetMeasurement dev s).1 = .ok m) → ∀ k < 6, validGroup r k) := by
  have hw : writeCall dev [0x03, 0x00] =
      { addr := dev.dev.Addr, w := some [0x03, 0x00], r := none } := rfl
  have hr : readCall dev 18 = { addr := dev.dev.Addr, w := none, r := some 18 } := rfl
  rw [← hw] at h1 h2 h3
  rw [← hr] at h2 h3
  rw [GetMeasurement_ok dev s h1 h2, readBuffer_eighteen _ r hlen hbytes h3]
  have hbad := (GetMeasurement_decode_spec r hlen hbytes).2
  refine ⟨hbad, ?_⟩
  rintro ⟨m, hm⟩ k hk
  by_contra hv
  obtain ⟨expected, got, he⟩ := hbad ⟨k, hk, hv⟩
  simp only [he] at hm
  exact absurd hm (by simp)

end measurement

/-! ## The theorems at the inputs of the tests -/

/-- Witness of C1 at `v = 0x0123` on a playback bus. -/
theorem word_round_trip_witness :
    ∃ hi lo c,
      busTxs (sendCommandArg playbackDev 0x5403 0x0123 (World.init [])).2.trace =
        busTxs [] ++ [writeCall playbackDev [0x54, 0x03, hi, lo, c]] ∧
      readValid16 [hi, lo, c] = (.ok [hi, lo], []) ∧
      Uint16 [hi, lo] = .ok 0x0123 :=
  word_round_trip 0x0123 (by decide) playbackDev 0x5403 (World.init [])

/-- Witness of C2 at the bytes `[0xBE, 0xEF]`. -/
theorem crc_refines_reference_witness :
    crc [0xBE, 0xEF] = crc8Reference [0xBE, 0xEF] 0xff :=
  (crc_refines_reference [0xBE, 0xEF] (by decide)).1

/-- Witness of C3: `TestSetTemperatureOffset`. -/
theorem set_commands_single_write_witness :
    busTxs (SetTemperatureOffset playbackDev 0x0123
        (World.init
          [{ Addr := 0x61, W := some [0x54, 0x03, 0x01, 0x23, 0xA0], R := none }])).2.trace =
      [{ addr := 0x61, w := some [0x54, 0x03, 0x01, 0x23, 0xA0], r := none }] :=
  (set_commands_single_write 0x0123 (by decide) playbackDev
    (World.init [{ Addr := 0x61, W := some [0x54, 0x03, 0x01, 0x23, 0xA0], R := none }])).2.2.2.2

/-- Witness of C4: `TestStartMeasurements`. -/
theorem StartMeasurements_two_writes_witness :
    (StartMeasurements playbackDev 0x0123
        (World.init [{ Addr := 0x61, W := some [0x46, 0x00, 0x01, 0x23, 0xA0], R := none },
          { Addr := 0x61, W := some [0x00, 0x10, 0x00, 0x00, 0x81], R := none }])).1 =
      .ok () :=
  (StartMeasurements_two_writes playbackDev 0x0123 (by decide)
    (World.init [{ Addr := 0x61, W := some [0x46, 0x00, 0x01, 0x23, 0xA0], R := none },
      { Addr := 0x61, W := some [0x00, 0x10, 0x00, 0x00, 0x81], R := none }])
    (by rfl) (by rfl)).1

/-- Witness of C5: `TestGetTemperatureOffset`. -/
theorem GetTemperatureOffset_reply_witness :
    (GetTemperatureOffset playbackDev
        (World.init [{ Addr := 0x61, W := some [0x54, 0x03], R := none },
          { Addr := 0x61, W := none, R := some [0x01, 0x23, 0xA0] }])).1 = .ok 0x0123 :=
  (GetTemperatureOffset_reply playbackDev
    (World.init [{ Addr := 0x61, W := some [0x54, 0x03], R := none },
      { Addr := 0x61, W := none, R := some [0x01, 0x23, 0xA0] }])
    0x01 0x23 0xA0 (by decide) (by decide) (by decide) (by rfl) (by rfl) (by rfl)).2.2.2 rfl

/-- Witness of C6: `TestHasMeasurement`. -/
theorem HasMeasurement_reply_witness :
    (HasMeasurement playbackDev
        (World.init [{ Addr := 0x61, W := some [0x02, 0x02], R := none },
          { Addr := 0x61, W := none, R := some [0x00, 0x01, 0xB0] }])).1 = .ok true :=
  (HasMeasurement_reply playbackDev
    (World.init [{ Addr := 0x61, W := some [0x02, 0x02], R := none },
      { Addr := 0x61, W := none, R := some [0x00, 0x01, 0xB0] }])
    0x00 0x01 0xB0 (by decide) (by decide) (by decide) (by rfl) (by rfl) (by rfl)).2.2.2 rfl

/-- Witness of C7: `TestGetMeasurement`. -/
theorem GetMeasurement_reply_witness :
    (GetMeasurement playbackDev
        (World.init [{ Addr := 0x61, W := some [0x03, 0x00], R := none },
          { Addr := 0x61, W := none, R := some testReply }])).1 =
      .ok { CO2 := 0x3F8CCCCD, Temperature := 0x400CCCCD, Humidity := 0x40533333 } :=
  (GetMeasurement_reply playbackDev
    (World.init [{ Addr := 0x61, W := some [0x03, 0x00], R := none },
      { Addr := 0x61, W := none, R := some testReply }])
    testReply (by rfl) (by decide) (by rfl) (by rfl) (by rfl)
    (by intro k hk; interval_cases k <;> rfl)).2.2 rfl

/-- A reply whose first five groups are valid and whose last checksum byte is wrong. -/
theorem corruptReply_invalid :
    ∃ k, k < 6 ∧ ¬ validGroup
      [0x3f, 0x8c, 0xad, 0xcc, 0xcd, 0x94, 0x40, 0xc, 0x75, 0xcc, 0xcd, 0x94, 0x40, 0x53,
        0x25, 0x33, 0x33, 0x89] k :=
  ⟨5, by decide, by
    have h : crc [0x33, 0x33] = 0x88 := by rfl
    simp [validGroup, h]⟩

/-- Witness of C8: the reply of `TestGetMeasurement` with its last checksum byte changed
from 0x88 to 0x89 yields a checksum error. -/
theorem GetMeasurement_no_partial_result_witness :
    ∃ expected got,
      (GetMeasurement playbackDev
        (World.init [{ Addr := 0x61, W := some [0x03, 0x00], R := none },
          { Addr := 0x61, W := none,
            R := some [0x3f, 0x8c, 0xad, 0xcc, 0xcd, 0x94, 0x40, 0xc, 0x75, 0xcc, 0xcd, 0x94,
              0x40, 0x53, 0x25, 0x33, 0x33, 0x89] }])).1 =
        .error (.crcError expected got) :=
  (GetMeasurement_no_partial_result playbackDev
    (World.init [{ Addr := 0x61, W := some [0x03, 0x00], R := none },
      { Addr := 0x61, W := none,
        R := some [0x3f, 0x8c, 0xad, 0xcc, 0xcd, 0x94, 0x40, 0xc, 0x75, 0xcc, 0xcd, 0x94,
          0x40, 0x53, 0x25, 0x33, 0x33, 0x89] }])
    [0x3f, 0x8c, 0xad, 0xcc, 0xcd, 0x94, 0x40, 0xc, 0x75, 0xcc, 0xcd, 0x94, 0x40, 0x53, 0x25,
      0x33, 0x33, 0x89]
    (by rfl) (by decide) (by rfl) (by rfl) (by rfl)).1 corruptReply_invalid

/-- Witness of C10: a bus that refuses the first write, and a bus that accepts the first
write and refuses the second. -/
theorem StartMeasurements_partial_failure_witness :
    ((StartMeasurements playbackDev 2 (World.init [])).1 = .error (.busError 1) ∧
      busTxs (StartMeasurements playbackDev 2 (World.init [])).2.trace =
        [intervalCall playbackDev 2]) ∧
    ((StartMeasurements playbackDev 2
        (World.init
          [{ Addr := 0x61, W := some [0x46, 0x00, 0x00, 0x02, 0xE3], R := none }])).1 = .error (.busError 1) ∧
      busTxs (StartMeasurements playbackDev 2
        (World.init
          [{ Addr := 0x61, W := some [0x46, 0x00, 0x00, 0x02, 0xE3], R := none }])).2.trace =
        [intervalCall playbackDev 2, startCall playbackDev]) :=
  ⟨(StartMeasurements_partial_failure playbackDev 2 (World.init []) 1).1 (by rfl),
   (StartMeasurements_partial_failure playbackDev 2
      (World.init
          [{ Addr := 0x61, W := some [0x46, 0x00, 0x00, 0x02, 0xE3], R := none }]) 1).2 (by rfl) (by rfl)⟩

/-! ## `Open`, `StopMeasurements`, the check input -/

section session
variable {σ : Type}

/-- C15: for every bus, `Open` returns no error and a handle bound to that bus with
address 0x61; it performs no bus transaction (the bus state is unchanged and the trace
gains only the lock and the unlock of the mutex). -/
theorem Open_binds_address (bus : i2c.Bus σ) (s : World σ) :
    ∃ dev, (Open bus s).1 = .ok dev ∧ dev.dev.Addr = 0x61 ∧ dev.dev.Bus = bus ∧
      busTxs (Open bus s).2.trace = busTxs s.trace ∧
      (Open bus s).2.bus = s.bus ∧
      (Open bus s).2.trace = s.trace ++ [.lock, .unlock] := by
  refine ⟨{ dev := { Addr := 0x61, Bus := bus } }, rfl, rfl, rfl, ?_, rfl, ?_⟩
  · simp [Open, withMutex, mutexLock, mutexUnlock, World.emit, busTxs_append]
    simp [busTxs]
  · simp [Open, withMutex, mutexLock, mutexUnlock, World.emit]

/-- C16: `StopMeasurements` adds exactly one bus transaction, the write of the two bytes
`[0x01, 0x04]` with no read buffer, and returns the result of that write: no error when
the bus accepts it, the error of the bus otherwise. -/
theorem StopMeasurements_single_write (dev : SCD30 σ) (s : World σ) :
    busTxs (StopMeasurements dev s).2.trace =
        busTxs s.trace ++ [{ addr := dev.dev.Addr, w := some [0x01, 0x04], r := none }] ∧
      (StopMeasurements dev s).1 =
        (match (dev.dev.Bus.Tx s.bus
            { addr := dev.dev.Addr, w := some [0x01, 0x04], r := none }).1.err with
          | none => .ok ()
          | some e => .error (.busError e)) := by
  have hcmd : [(0x0104 >>> 8) % 256, 0x0104 % 256] = [0x01, 0x04] := by decide
  have hw : writeCall dev [0x01, 0x04] =
      { addr := dev.dev.Addr, w := some [0x01, 0x04], r := none } := rfl
  constructor
  · rw [StopMeasurements, withMutex_busTxs, sendCommand_eq, writeAndWait_busTxs,
      mutexLock_busTxs, hcmd, hw]
  · rw [← hw]
    simp only [StopMeasurements, withMutex, sendCommand_eq, hcmd]
    cases h : (dev.dev.Bus.Tx s.bus (writeCall dev [0x01, 0x04])).1.err with
    | none => rw [writeAndWait_ok dev _ (mutexLock s) h]
    | some e => rw [writeAndWait_err dev _ (mutexLock s) e h]

/-- C12: the checksum of the nine ASCII bytes "123456789" is 0xF7, under the table of
`init` and under the bit-by-bit reference alike, while the `Check` parameter declared in
`init` is 0xFF: the two differ. -/
theorem crc_check_input :
    crc [0x31, 0x32, 0x33, 0x34, 0x35, 0x36, 0x37, 0x38, 0x39] = 0xF7 ∧
      crc8Reference [0x31, 0x32, 0x33, 0x34, 0x35, 0x36, 0x37, 0x38, 0x39] 0xff = 0xF7 ∧
      crcTable.params.Check = 0xFF ∧
      crc [0x31, 0x32, 0x33, 0x34, 0x35, 0x36, 0x37, 0x38, 0x39] ≠ crcTable.params.Check := by
  have h : crc [0x31, 0x32, 0x33, 0x34, 0x35, 0x36, 0x37, 0x38, 0x39] = 0xF7 := by rfl
  have href : crc8Reference [0x31, 0x32, 0x33, 0x34, 0x35, 0x36, 0x37, 0x38, 0x39] 0xff =
      crc [0x31, 0x32, 0x33, 0x34, 0x35, 0x36, 0x37, 0x38, 0x39] := by
    rw [crc_eq_update]
    exact (update_eq_reference _ (by decide) 0xff (by decide)).symm
  have hcheck : crcTable.params.Check = 0xFF := rfl
  refine ⟨h, by rw [href, h], hcheck, ?_⟩
  rw [h, hcheck]
  decide

end session

/-! ## Buffers of any length -/

/-- C18: on a buffer that holds at least two groups, `readValidFloat32` stops at the first
checksum failure.  First group invalid: an error, and exactly 3 bytes consumed (the second
group is left unread).  First valid and second invalid: an error, and exactly 6 bytes
consumed.  Both valid: exactly 6 bytes consumed, and the result is the bit pattern made
big-endian of the four data bytes in read order. -/
theorem readValidFloat32_stops_at_first_failure (d0 d1 c0 d2 d3 c1 : Nat)
    (rest : List Nat) (h1 : d1 < 256) (h2 : d2 < 256) (h3 : d3 < 256) :
    (c0 ≠ crc [d0, d1] →
        readValidFloat32 (d0 :: d1 :: c0 :: d2 :: d3 :: c1 :: rest) =
          (.error (.crcError (crc [d0, d1]) c0), d2 :: d3 :: c1 :: rest)) ∧
      (c0 = crc [d0, d1] → c1 ≠ crc [d2, d3] →
        readValidFloat32 (d0 :: d1 :: c0 :: d2 :: d3 :: c1 :: rest) =
          (.error (.crcError (crc [d2, d3]) c1), rest)) ∧
      (c0 = crc [d0, d1] → c1 = crc [d2, d3] →
        readValidFloat32 (d0 :: d1 :: c0 :: d2 :: d3 :: c1 :: rest) =
          (.ok (d0 * 16777216 + d1 * 65536 + d2 * 256 + d3), rest)) := by
  rw [readValidFloat32_groups, uint32_bytes d0 d1 d2 d3 h1 h2 h3]
  refine ⟨?_, ?_, ?_⟩
  · intro g0
    simp [g0]
  · intro g0 g1
    simp [g0, g1]
  · intro g0 g1
    simp [g0, g1, Float32frombits]

/-- Witness of C18: the first two groups of the reply of `TestGetMeasurement`, followed by
the rest of that reply. -/
theorem readValidFloat32_stops_at_first_failure_witness :
    readValidFloat32 testReply =
      (.ok 0x3F8CCCCD,
        [0x40, 0xc, 0x75, 0xcc, 0xcd, 0x94, 0x40, 0x53, 0x25, 0x33, 0x33, 0x88]) :=
  (readValidFloat32_stops_at_first_failure 0x3f 0x8c 0xad 0xcc 0xcd 0x94
    [0x40, 0xc, 0x75, 0xcc, 0xcd, 0x94, 0x40, 0x53, 0x25, 0x33, 0x33, 0x88]
    (by decide) (by decide) (by decide)).2.2 (by rfl) (by rfl)

theorem readValid16_short (buf : List Nat) (h : buf.length < 3) :
    readValid16 buf = (.error .EOF, []) := by
  match buf, h with
  | [], _ => rfl
  | [_], _ => rfl
  | [_, _], _ => rfl

theorem readValid16_long (d0 d1 c : Nat) (rest : List Nat) :
    readValid16 (d0 :: d1 :: c :: rest) =
      if c ≠ crc [d0, d1] then (.error (.crcError (crc [d0, d1]) c), rest)
      else (.ok [d0, d1], rest) := by
  by_cases h : c = crc [d0, d1]
  · simp [readValid16, Buffer.Next, Buffer.ReadByte, h]
  · have h2 : ¬ crc [d0, d1] = c := fun h3 => h h3.symm
    simp [readValid16, Buffer.Next, Buffer.ReadByte, h, h2]

theorem readValid16_no_panic (buf : List Nat) :
    (readValid16 buf).1 ≠ .error .indexOutOfRange := by
  match buf with
  | [] => simp [readValid16_short]
  | [_] => simp [readValid16_short]
  | [_, _] => simp [readValid16_short]
  | d0 :: d1 :: c :: rest =>
    rw [readValid16_long]
    split <;> simp

theorem readValidFloat32_short (buf : List Nat) (h : buf.length < 3) :
    readValidFloat32 buf = (.error .EOF, []) := by
  simp [readValidFloat32, readValidFloat32.loop, readValid16_short buf h]

theorem readValidFloat32_one_group (d0 d1 c : Nat) (rest : List Nat)
    (h : rest.length < 3) :
    readValidFloat32 (d0 :: d1 :: c :: rest) =
      if c ≠ crc [d0, d1] then (.error (.crcError (crc [d0, d1]) c), rest)
      else (.error .EOF, []) := by
  by_cases g : c = crc [d0, d1]
  · simp [readValidFloat32, readValidFloat32.loop, readValid16_long, g,
      readValid16_short rest h]
  · simp [readValidFloat32, readValidFloat32.loop, readValid16_long, g]

theorem uint32_four (b0 b1 b2 b3 : Nat) :
    Uint32 [b0, b1, b2, b3] = .ok (b3 ||| (b2 <<< 8) ||| (b1 <<< 16) ||| (b0 <<< 24)) := rfl

theorem readValidFloat32_no_panic (buf : List Nat) :
    (readValidFloat32 buf).1 ≠ .error .indexOutOfRange := by
  match buf with
  | [] => simp [readValidFloat32_short]
  | [_] => simp [readValidFloat32_short]
  | [_, _] => simp [readValidFloat32_short]
  | [d0, d1, c] =>
    rw [readValidFloat32_one_group _ _ _ _ (by simp)]
    split <;> simp
  | [d0, d1, c, x] =>
    rw [readValidFloat32_one_group _ _ _ _ (by simp)]
    split <;> simp
  | [d0, d1, c, x, y] =>
    rw [readValidFloat32_one_group _ _ _ _ (by simp)]
    split <;> simp
  | d0 :: d1 :: c0 :: d2 :: d3 :: c1 :: rest =>
    rw [readValidFloat32_groups, uint32_four]
    split
    · simp
    · split <;> simp

/-- C20 (short input): on a buffer of any length neither `readValid16` nor
`readValidFloat32` runs into an index out of range; `readValid16` on fewer than 3 bytes
returns the end-of-input error; `readValidFloat32` on fewer than 6 bytes returns an error,
which is the end-of-input error when the bytes present form no invalid group (fewer than
3 bytes, or a first group whose checksum is right). -/
theorem short_input_safety (buf : List Nat) :
    (readValid16 buf).1 ≠ .error .indexOutOfRange ∧
      (readValidFloat32 buf).1 ≠ .error .indexOutOfRange ∧
      (buf.length < 3 → (readValid16 buf).1 = .error .EOF) ∧
      (buf.length < 6 → ∃ e, (readValidFloat32 buf).1 = .error e) ∧
      (buf.length < 6 →
        (buf.length < 3 ∨ buf.getD 2 0 = crc [buf.getD 0 0, buf.getD 1 0]) →
        (readValidFloat32 buf).1 = .error .EOF) := by
  refine ⟨readValid16_no_panic buf, readValidFloat32_no_panic buf, ?_, ?_, ?_⟩
  · intro h
    rw [readValid16_short buf h]
  · intro h
    match buf, h with
    | [], _ => exact ⟨_, by rw [readValidFloat32_short _ (by simp)]⟩
    | [_], _ => exact ⟨_, by rw [readValidFloat32_short _ (by simp)]⟩
    | [_, _], _ => exact ⟨_, by rw [readValidFloat32_short _ (by simp)]⟩
    | d0 :: d1 :: c :: rest, h =>
      have hr : rest.length < 3 := by simp at h; omega
      rw [readValidFloat32_one_group _ _ _ _ hr]
      by_cases g : c = crc [d0, d1]
      · exact ⟨.EOF, by simp [g]⟩
      · exact ⟨.crcError (crc [d0, d1]) c, by simp [g]⟩
  · intro h hv
    match buf, h, hv with
    | [], _, _ => rw [readValidFloat32_short _ (by simp)]
    | [_], _, _ => rw [readValidFloat32_short _ (by simp)]
    | [_, _], _, _ => rw [readValidFloat32_short _ (by simp)]
    | d0 :: d1 :: c :: rest, h, hv =>
      have hr : rest.length < 3 := by simp at h; omega
      have g : c = crc [d0, d1] := by
        rcases hv with hv | hv
        · simp at hv
          omega
        · simpa using hv
      rw [readValidFloat32_one_group _ _ _ _ hr]
      simp [g]

/-! ## Refused transactions -/

section failures
variable {σ : Type}

/-- A single write under the mutex, accepted by the bus. -/
theorem mutex_write_ok (dev : SCD30 σ) (data : List Nat) (s : World σ)
    (h : (dev.dev.Bus.Tx s.bus (writeCall dev data)).1.err = none) :
    withMutex (fun s => writeAndWait dev data s) s =
      (.ok (), { bus := (dev.dev.Bus.Tx s.bus (writeCall dev data)).2
                 trace := s.trace ++ [.lock, .tx (writeCall dev data) none,
                   .sleep 4000000, .unlock] }) := by
  simp only [withMutex]
  rw [writeAndWait_ok dev data (mutexLock s) h]
  simp [mutexLock, mutexUnlock, World.emit]

/-- A single write under the mutex, refused by the bus. -/
theorem mutex_write_err (dev : SCD30 σ) (data : List Nat) (s : World σ) (e : Nat)
    (h : (dev.dev.Bus.Tx s.bus (writeCall dev data)).1.err = some e) :
    withMutex (fun s => writeAndWait dev data s) s =
      (.error (.busError e),
       { bus := (dev.dev.Bus.Tx s.bus (writeCall dev data)).2
         trace := s.trace ++ [.lock, .tx (writeCall dev data) (some e), .unlock] }) := by
  simp only [withMutex]
  rw [writeAndWait_err dev data (mutexLock s) e h]
  simp [mutexLock, mutexUnlock, World.emit]

theorem StopMeasurements_eq (dev : SCD30 σ) (s : World σ) :
    StopMeasurements dev s = withMutex (fun s => writeAndWait dev [0x01, 0x04] s) s := rfl

theorem SetTemperatureOffset_eq (dev : SCD30 σ) (v : Nat) (s : World σ) :
    SetTemperatureOffset dev v s =
      withMutex (fun s => writeAndWait dev (argFrame 0x5403 v) s) s := rfl

theorem SetAutomaticSelfCalibration_eq (dev : SCD30 σ) (v : Nat) (s : World σ) :
    SetAutomaticSelfCalibration dev v s =
      withMutex (fun s => writeAndWait dev (argFrame 0x5306 v) s) s := rfl

theorem SetForcedCalibration_eq (dev : SCD30 σ) (v : Nat) (s : World σ) :
    SetForcedCalibration dev v s =
      withMutex (fun s => writeAndWait dev (argFrame 0x5204 v) s) s := rfl

/-- The command write of a getter, refused by the bus. -/
theorem command_write_err (dev : SCD30 σ) (cmd : Nat) (s : World σ) (e : Nat)
    (h1 : (dev.dev.Bus.Tx s.bus
      (writeCall dev [(cmd >>> 8) % 256, cmd % 256])).1.err = some e) :
    sendCommand dev cmd (mutexLock s) =
      (.error (.busError e),
       { bus := (dev.dev.Bus.Tx s.bus (writeCall dev [(cmd >>> 8) % 256, cmd % 256])).2
         trace := s.trace ++ [.lock,
           .tx (writeCall dev [(cmd >>> 8) % 256, cmd % 256]) (some e)] }) := by
  rw [sendCommand_eq, writeAndWait_err dev _ (mutexLock s) e h1]
  simp [mutexLock, World.emit]

/-- The command write of a getter accepted and its read refused by the bus. -/
theorem command_then_read_err (dev : SCD30 σ) (cmd len : Nat) (s : World σ) (e : Nat)
    (h1 : (dev.dev.Bus.Tx s.bus
      (writeCall dev [(cmd >>> 8) % 256, cmd % 256])).1.err = none)
    (h2 : (dev.dev.Bus.Tx
      (dev.dev.Bus.Tx s.bus (writeCall dev [(cmd >>> 8) % 256, cmd % 256])).2
      (readCall dev len)).1.err = some e) :
    sendCommand dev cmd (mutexLock s) =
        (.ok (),
         { bus := (dev.dev.Bus.Tx s.bus (writeCall dev [(cmd >>> 8) % 256, cmd % 256])).2
           trace := s.trace ++ [.lock,
             .tx (writeCall dev [(cmd >>> 8) % 256, cmd % 256]) none, .sleep 4000000] }) ∧
      readData dev len
          { bus := (dev.dev.Bus.Tx s.bus (writeCall dev [(cmd >>> 8) % 256, cmd % 256])).2
            trace := s.trace ++ [.lock,
              .tx (writeCall dev [(cmd >>> 8) % 256, cmd % 256]) none, .sleep 4000000] } =
        (.error (.busError e),
         { bus := (dev.dev.Bus.Tx
             (dev.dev.Bus.Tx s.bus (writeCall dev [(cmd >>> 8) % 256, cmd % 256])).2
             (readCall dev len)).2
           trace := s.trace ++ [.lock,
             .tx (writeCall dev [(cmd >>> 8) % 256, cmd % 256]) none, .sleep 4000000,
             .tx (readCall dev len) (some e)] }) := by
  constructor
  · rw [sendCommand_eq, writeAndWait_ok dev _ (mutexLock s) h1]
    simp [mutexLock, World.emit]
  · rw [readData_err dev len _ e h2]
    simp

theorem GetTemperatureOffset_err_write (dev : SCD30 σ) (s : World σ) (e : Nat)
    (h1 : (dev.dev.Bus.Tx s.bus (writeCall dev [0x54, 0x03])).1.err = some e) :
    GetTemperatureOffset dev s =
      (.error (.busError e),
       { bus := (dev.dev.Bus.Tx s.bus (writeCall dev [0x54, 0x03])).2
         trace := s.trace ++ [.lock, .tx (writeCall dev [0x54, 0x03]) (some e),
           .unlock] }) := by
  have hcmd : [(0x5403 >>> 8) % 256, 0x5403 % 256] = [0x54, 0x03] := by decide
  have h := command_write_err dev 0x5403 s e (by rw [hcmd]; exact h1)
  rw [hcmd] at h
  simp only [GetTemperatureOffset, withMutex]
  rw [h]
  simp [mutexUnlock, World.emit]

theorem GetTemperatureOffset_err_read (dev : SCD30 σ) (s : World σ) (e : Nat)
    (h1 : (dev.dev.Bus.Tx s.bus (writeCall dev [0x54, 0x03])).1.err = none)
    (h2 : (dev.dev.Bus.Tx (dev.dev.Bus.Tx s.bus (writeCall dev [0x54, 0x03])).2
      (readCall dev 3)).1.err = some e) :
    GetTemperatureOffset dev s =
      (.error (.busError e),
       { bus := (dev.dev.Bus.Tx (dev.dev.Bus.Tx s.bus (writeCall dev [0x54, 0x03])).2
           (readCall dev 3)).2
         trace := s.trace ++ [.lock, .tx (writeCall dev [0x54, 0x03]) none, .sleep 4000000,
           .tx (readCall dev 3) (some e), .unlock] }) := by
  have hcmd : [(0x5403 >>> 8) % 256, 0x5403 % 256] = [0x54, 0x03] := by decide
  have h := command_then_read_err dev 0x5403 3 s e (by rw [hcmd]; exact h1)
    (by rw [hcmd]; exact h2)
  rw [hcmd] at h
  simp only [GetTemperatureOffset, withMutex]
  rw [h.1]
  simp only []
  rw [h.2]
  simp [mutexUnlock, World.emit]

theorem HasMeasurement_err_write (dev : SCD30 σ) (s : World σ) (e : Nat)
    (h1 : (dev.dev.Bus.Tx s.bus (writeCall dev [0x02, 0x02])).1.err = some e) :
    HasMeasurement dev s =
      (.error (.busError e),
       { bus := (dev.dev.Bus.Tx s.bus (writeCall dev [0x02, 0x02])).2
         trace := s.trace ++ [.lock, .tx (writeCall dev [0x02, 0x02]) (some e),
           .unlock] }) := by
  have hcmd : [(0x0202 >>> 8) % 256, 0x0202 % 256] = [0x02, 0x02] := by decide
  have h := command_write_err dev 0x0202 s e (by rw [hcmd]; exact h1)
  rw [hcmd] at h
  simp only [HasMeasurement, withMutex]
  rw [h]
  simp [mutexUnlock, World.emit]

theorem HasMeasurement_err_read (dev : SCD30 σ) (s : World σ) (e : Nat)
    (h1 : (dev.dev.Bus.Tx s.bus (writeCall dev [0x02, 0x02])).1.err = none)
    (h2 : (dev.dev.Bus.Tx (dev.dev.Bus.Tx s.bus (writeCall dev [0x02, 0x02])).2
      (readCall dev 3)).1.err = some e) :
    HasMeasurement dev s =
      (.error (.busError e),
       { bus := (dev.dev.Bus.Tx (dev.dev.Bus.Tx s.bus (writeCall dev [0x02, 0x02])).2
           (readCall dev 3)).2
         trace := s.trace ++ [.lock, .tx (writeCall dev [0x02, 0x02]) none, .sleep 4000000,
           .tx (readCall dev 3) (some e), .unlock] }) := by
  have hcmd : [(0x0202 >>> 8) % 256, 0x0202 % 256] = [0x02, 0x02] := by decide
  have h := command_then_read_err dev 0x0202 3 s e (by rw [hcmd]; exact h1)
    (by rw [hcmd]; exact h2)
  rw [hcmd] at h
  simp only [HasMeasurement, withMutex]
  rw [h.1]
  simp only []
  rw [h.2]
  simp [mutexUnlock, World.emit]

theorem GetMeasurement_err_write (dev : SCD30 σ) (s : World σ) (e : Nat)
    (h1 : (dev.dev.Bus.Tx s.bus (writeCall dev [0x03, 0x00])).1.err = some e) :
    GetMeasurement dev s =
      (.error (.busError e),
       { bus := (dev.dev.Bus.Tx s.bus (writeCall dev [0x03, 0x00])).2
         trace := s.trace ++ [.lock, .tx (writeCall dev [0x03, 0x00]) (some e),
           .unlock] }) := by
  have hcmd : [(0x0300 >>> 8) % 256, 0x0300 % 256] = [0x03, 0x00] := by decide
  have h := command_write_err dev 0x0300 s e (by rw [hcmd]; exact h1)
  rw [hcmd] at h
  simp only [GetMeasurement, withMutex]
  rw [h]
  simp [mutexUnlock, World.emit]

theorem GetMeasurement_err_read (dev : SCD30 σ) (s : World σ) (e : Nat)
    (h1 : (dev.dev.Bus.Tx s.bus (writeCall dev [0x03, 0x00])).1.err = none)
    (h2 : (dev.dev.Bus.Tx (dev.dev.Bus.Tx s.bus (writeCall dev [0x03, 0x00])).2
      (readCall dev 18)).1.err = some e) :
    GetMeasurement dev s =
      (.error (.busError e),
       { bus := (dev.dev.Bus.Tx (dev.dev.Bus.Tx s.bus (writeCall dev [0x03, 0x00])).2
           (readCall dev 18)).2
         trace := s.trace ++ [.lock, .tx (writeCall dev [0x03, 0x00]) none, .sleep 4000000,
           .tx (readCall dev 18) (some e), .unlock] }) := by
  have hcmd : [(0x0300 >>> 8) % 256, 0x0300 % 256] = [0x03, 0x00] := by decide
  have h := command_then_read_err dev 0x0300 18 s e (by rw [hcmd]; exact h1)
    (by rw [hcmd]; exact h2)
  rw [hcmd] at h
  simp only [GetMeasurement, withMutex]
  rw [h.1]
  simp only []
  rw [h.2]
  simp [mutexUnlock, World.emit]

/-- C11 (transport errors): for every public operation that touches the bus, when the bus
refuses a write or a read with error `e` the operation returns exactly `e`, and its
transactions are those up to and including the refused one, each issued once: nothing
follows the refused transaction, and a getter whose command write is refused issues no
read. -/
theorem transport_errors_surface (dev : SCD30 σ) (s : World σ) (e v i : Nat) :
    ((dev.dev.Bus.Tx s.bus (writeCall dev [0x01, 0x04])).1.err = some e →
        (StopMeasurements dev s).1 = .error (.busError e) ∧
        busTxs (StopMeasurements dev s).2.trace = busTxs s.trace ++ [writeCall dev [0x01, 0x04]]) ∧
      ((dev.dev.Bus.Tx s.bus (writeCall dev (argFrame 0x5403 v))).1.err = some e →
        (SetTemperatureOffset dev v s).1 = .error (.busError e) ∧
        busTxs (SetTemperatureOffset dev v s).2.trace = busTxs s.trace ++ [writeCall dev (argFrame 0x5403 v)]) ∧
      ((dev.dev.Bus.Tx s.bus (writeCall dev (argFrame 0x5306 v))).1.err = some e →
        (SetAutomaticSelfCalibration dev v s).1 = .error (.busError e) ∧
        busTxs (SetAutomaticSelfCalibration dev v s).2.trace = busTxs s.trace ++ [writeCall dev (argFrame 0x5306 v)]) ∧
      ((dev.dev.Bus.Tx s.bus (writeCall dev (argFrame 0x5204 v))).1.err = some e →
        (SetForcedCalibration dev v s).1 = .error (.busError e) ∧
        busTxs (SetForcedCalibration dev v s).2.trace = busTxs s.trace ++ [writeCall dev (argFrame 0x5204 v)]) ∧
      ((dev.dev.Bus.Tx s.bus (intervalCall dev i)).1.err = some e →
        (StartMeasurements dev i s).1 = .error (.busError e) ∧
        busTxs (StartMeasurements dev i s).2.trace =
          busTxs s.trace ++ [intervalCall dev i]) ∧
      ((dev.dev.Bus.Tx s.bus (intervalCall dev i)).1.err = none →
        (dev.dev.Bus.Tx (dev.dev.Bus.Tx s.bus (intervalCall dev i)).2
          (startCall dev)).1.err = some e →
        (StartMeasurements dev i s).1 = .error (.busError e) ∧
        busTxs (StartMeasurements dev i s).2.trace =
          busTxs s.trace ++ [intervalCall dev i, startCall dev]) ∧
      ((dev.dev.Bus.Tx s.bus (writeCall dev [0x54, 0x03])).1.err = some e →
        (GetTemperatureOffset dev s).1 = .error (.busError e) ∧
        busTxs (GetTemperatureOffset dev s).2.trace = busTxs s.trace ++ [writeCall dev [0x54, 0x03]]) ∧
      ((dev.dev.Bus.Tx s.bus (writeCall dev [0x54, 0x03])).1.err = none →
        (dev.dev.Bus.Tx (dev.dev.Bus.Tx s.bus (writeCall dev [0x54, 0x03])).2
          (readCall dev 3)).1.err = some e →
        (GetTemperatureOffset dev s).1 = .error (.busError e) ∧
        busTxs (GetTemperatureOffset dev s).2.trace =
          busTxs s.trace ++ [writeCall dev [0x54, 0x03], readCall dev 3]) ∧
      ((dev.dev.Bus.Tx s.bus (writeCall dev [0x02, 0x02])).1.err = some e →
        (HasMeasurement dev s).1 = .error (.busError e) ∧
        busTxs (HasMeasurement dev s).2.trace = busTxs s.trace ++ [writeCall dev [0x02, 0x02]]) ∧
      ((dev.dev.Bus.Tx s.bus (writeCall dev [0x02, 0x02])).1.err = none →
        (dev.dev.Bus.Tx (dev.dev.Bus.Tx s.bus (writeCall dev [0x02, 0x02])).2
          (readCall dev 3)).1.err = some e →
        (HasMeasurement dev s).1 = .error (.busError e) ∧
        busTxs (HasMeasurement dev s).2.trace =
          busTxs s.trace ++ [writeCall dev [0x02, 0x02], readCall dev 3]) ∧
      ((dev.dev.Bus.Tx s.bus (writeCall dev [0x03, 0x00])).1.err = some e →
        (GetMeasurement dev s).1 = .error (.busError e) ∧
        busTxs (GetMeasurement dev s).2.trace = busTxs s.trace ++ [writeCall dev [0x03, 0x00]]) ∧
      ((dev.dev.Bus.Tx s.bus (writeCall dev [0x03, 0x00])).1.err = none →
        (dev.dev.Bus.Tx (dev.dev.Bus.Tx s.bus (writeCall dev [0x03, 0x00])).2
          (readCall dev 18)).1.err = some e →
        (GetMeasurement dev s).1 = .error (.busError e) ∧
        busTxs (GetMeasurement dev s).2.trace =
          busTxs s.trace ++ [writeCall dev [0x03, 0x00], readCall dev 18]) := by
  refine ⟨?_, ?_, ?_, ?_, ?_, ?_, ?_, ?_, ?_, ?_, ?_, ?_⟩
  · intro h
    rw [StopMeasurements_eq dev s, mutex_write_err dev _ s e h]
    exact ⟨rfl, by simp [busTxs_append]; simp [busTxs]⟩
  · intro h
    rw [SetTemperatureOffset_eq dev v s, mutex_write_err dev _ s e h]
    exact ⟨rfl, by simp [busTxs_append]; simp [busTxs]⟩
  · intro h
    rw [SetAutomaticSelfCalibration_eq dev v s, mutex_write_err dev _ s e h]
    exact ⟨rfl, by simp [busTxs_append]; simp [busTxs]⟩
  · intro h
    rw [SetForcedCalibration_eq dev v s, mutex_write_err dev _ s e h]
    exact ⟨rfl, by simp [busTxs_append]; simp [busTxs]⟩
  · intro h
    rw [StartMeasurements_err_first dev i s e h]
    exact ⟨rfl, by simp [busTxs_append]; simp [busTxs]⟩
  · intro h1 h2
    rw [StartMeasurements_err_second dev i s e h1 h2]
    exact ⟨rfl, by simp [busTxs_append]; simp [busTxs]⟩
  · intro h
    rw [GetTemperatureOffset_err_write dev s e h]
    exact ⟨rfl, by simp [busTxs_append]; simp [busTxs]⟩
  · intro h1 h2
    rw [GetTemperatureOffset_err_read dev s e h1 h2]
    exact ⟨rfl, by simp [busTxs_append]; simp [busTxs]⟩
  · intro h
    rw [HasMeasurement_err_write dev s e h]
    exact ⟨rfl, by simp [busTxs_append]; simp [busTxs]⟩
  · intro h1 h2
    rw [HasMeasurement_err_read dev s e h1 h2]
    exact ⟨rfl, by simp [busTxs_append]; simp [busTxs]⟩
  · intro h
    rw [GetMeasurement_err_write dev s e h]
    exact ⟨rfl, by simp [busTxs_append]; simp [busTxs]⟩
  · intro h1 h2
    rw [GetMeasurement_err_read dev s e h1 h2]
    exact ⟨rfl, by simp [busTxs_append]; simp [busTxs]⟩

end failures

/-! ## The effects of every operation -/

section effects
variable {σ : Type}

theorem argFrame_ne_nil (cmd arg : Nat) : argFrame cmd arg ≠ [] := by
  simp [argFrame]

/-- A single write under the mutex: the effects it adds obey the settle discipline, and its
only transaction is write-only. -/
theorem mutex_write_added (dev : SCD30 σ) (data : List Nat) (hd : data ≠ [])
    (s : World σ) :
    ∃ added, (withMutex (fun s => writeAndWait dev data s) s).2.trace = s.trace ++ added ∧
      settled added = true ∧ ∀ c ∈ busTxs added, writeOnly c := by
  cases h : (dev.dev.Bus.Tx s.bus (writeCall dev data)).1.err with
  | none =>
    rw [mutex_write_ok dev data s h]
    exact ⟨[.lock, .tx (writeCall dev data) none, .sleep 4000000, .unlock], rfl,
      by simp [settled, writeCall, Millisecond],
      by simp [busTxs, writeOnly, writeCall, hd]⟩
  | some e =>
    rw [mutex_write_err dev data s e h]
    exact ⟨[.lock, .tx (writeCall dev data) (some e), .unlock], rfl,
      by simp [settled, writeCall],
      by simp [busTxs, writeOnly, writeCall, hd]⟩

theorem Open_added (bus : i2c.Bus σ) (s : World σ) :
    ∃ added, (Open bus s).2.trace = s.trace ++ added ∧
      settled added = true ∧ ∀ c ∈ busTxs added, writeOnly c :=
  ⟨[.lock, .unlock], by simp [Open, withMutex, mutexLock, mutexUnlock, World.emit],
    by simp [settled], by simp [busTxs]⟩

theorem StartMeasurements_added (dev : SCD30 σ) (i : Nat) (s : World σ) :
    ∃ added, (StartMeasurements dev i s).2.trace = s.trace ++ added ∧
      settled added = true ∧ ∀ c ∈ busTxs added, writeOnly c := by
  cases h1 : (dev.dev.Bus.Tx s.bus (intervalCall dev i)).1.err with
  | some e =>
    rw [StartMeasurements_err_first dev i s e h1]
    exact ⟨[.lock, .tx (intervalCall dev i) (some e), .unlock], rfl,
      by simp [settled, intervalCall, writeCall],
      by simp [busTxs, writeOnly, intervalCall, writeCall, argFrame]⟩
  | none =>
    cases h2 : (dev.dev.Bus.Tx (dev.dev.Bus.Tx s.bus (intervalCall dev i)).2
        (startCall dev)).1.err with
    | some e =>
      rw [StartMeasurements_err_second dev i s e h1 h2]
      exact ⟨[.lock, .tx (intervalCall dev i) none, .sleep 4000000,
          .tx (startCall dev) (some e), .unlock], rfl,
        by simp [settled, intervalCall, startCall, writeCall, Millisecond],
        by simp [busTxs, writeOnly, intervalCall, startCall, writeCall, argFrame]⟩
    | none =>
      rw [StartMeasurements_ok dev i s h1 h2]
      exact ⟨[.lock, .tx (intervalCall dev i) none, .sleep 4000000,
          .tx (startCall dev) none, .sleep 4000000, .unlock], rfl,
        by simp [settled, intervalCall, startCall, writeCall, Millisecond],
        by simp [busTxs, writeOnly, intervalCall, startCall, writeCall, argFrame]⟩

theorem GetTemperatureOffset_added (dev : SCD30 σ) (s : World σ) :
    ∃ added, (GetTemperatureOffset dev s).2.trace = s.trace ++ added ∧
      settled added = true ∧ ∀ c ∈ busTxs added, writeOnly c ∨ readOnly 3 c := by
  cases h1 : (dev.dev.Bus.Tx s.bus (writeCall dev [0x54, 0x03])).1.err with
  | some e =>
    rw [GetTemperatureOffset_err_write dev s e h1]
    exact ⟨[.lock, .tx (writeCall dev [0x54, 0x03]) (some e), .unlock], rfl,
      by simp [settled, writeCall],
      by simp [busTxs, writeOnly, writeCall]⟩
  | none =>
    cases h2 : (dev.dev.Bus.Tx (dev.dev.Bus.Tx s.bus (writeCall dev [0x54, 0x03])).2
        (readCall dev 3)).1.err with
    | some e =>
      rw [GetTemperatureOffset_err_read dev s e h1 h2]
      exact ⟨[.lock, .tx (writeCall dev [0x54, 0x03]) none, .sleep 4000000,
          .tx (readCall dev 3) (some e), .unlock], rfl,
        by simp [settled, writeCall, readCall, Millisecond],
        by simp [busTxs, writeOnly, readOnly, writeCall, readCall]⟩
    | none =>
      rw [GetTemperatureOffset_ok dev s h1 h2]
      exact ⟨[.lock, .tx (writeCall dev [0x54, 0x03]) none, .sleep 4000000,
          .tx (readCall dev 3) none, .unlock], rfl,
        by simp [settled, writeCall, readCall, Millisecond],
        by simp [busTxs, writeOnly, readOnly, writeCall, readCall]⟩

theorem HasMeasurement_added (dev : SCD30 σ) (s : World σ) :
    ∃ added, (HasMeasurement dev s).2.trace = s.trace ++ added ∧
      settled added = true ∧ ∀ c ∈ busTxs added, writeOnly c ∨ readOnly 3 c := by
  cases h1 : (dev.dev.Bus.Tx s.bus (writeCall dev [0x02, 0x02])).1.err with
  | some e =>
    rw [HasMeasurement_err_write dev s e h1]
    exact ⟨[.lock, .tx (writeCall dev [0x02, 0x02]) (some e), .unlock], rfl,
      by simp [settled, writeCall],
      by simp [busTxs, writeOnly, writeCall]⟩
  | none =>
    cases h2 : (dev.dev.Bus.Tx (dev.dev.Bus.Tx s.bus (writeCall dev [0x02, 0x02])).2
        (readCall dev 3)).1.err with
    | some e =>
      rw [HasMeasurement_err_read dev s e h1 h2]
      exact ⟨[.lock, .tx (writeCall dev [0x02, 0x02]) none, .sleep 4000000,
          .tx (readCall dev 3) (some e), .unlock], rfl,
        by simp [settled, writeCall, readCall, Millisecond],
        by simp [busTxs, writeOnly, readOnly, writeCall, readCall]⟩
    | none =>
      rw [HasMeasurement_ok dev s h1 h2]
      exact ⟨[.lock, .tx (writeCall dev [0x02, 0x02]) none, .sleep 4000000,
          .tx (readCall dev 3) none, .unlock], rfl,
        by simp [settled, writeCall, readCall, Millisecond],
        by simp [busTxs, writeOnly, readOnly, writeCall, readCall]⟩

theorem GetMeasurement_added (dev : SCD30 σ) (s : World σ) :
    ∃ added, (GetMeasurement dev s).2.trace = s.trace ++ added ∧
      settled added = true ∧ ∀ c ∈ busTxs added, writeOnly c ∨ readOnly 18 c := by
  cases h1 : (dev.dev.Bus.Tx s.bus (writeCall dev [0x03, 0x00])).1.err with
  | some e =>
    rw [GetMeasurement_err_write dev s e h1]
    exact ⟨[.lock, .tx (writeCall dev [0x03, 0x00]) (some e), .unlock], rfl,
      by simp [settled, writeCall],
      by simp [busTxs, writeOnly, writeCall]⟩
  | none =>
    cases h2 : (dev.dev.Bus.Tx (dev.dev.Bus.Tx s.bus (writeCall dev [0x03, 0x00])).2
        (readCall dev 18)).1.err with
    | some e =>
      rw [GetMeasurement_err_read dev s e h1 h2]
      exact ⟨[.lock, .tx (writeCall dev [0x03, 0x00]) none, .sleep 4000000,
          .tx (readCall dev 18) (some e), .unlock], rfl,
        by simp [settled, writeCall, readCall, Millisecond],
        by simp [busTxs, writeOnly, readOnly, writeCall, readCall]⟩
    | none =>
      rw [GetMeasurement_ok dev s h1 h2]
      exact ⟨[.lock, .tx (writeCall dev [0x03, 0x00]) none, .sleep 4000000,
          .tx (readCall dev 18) none, .unlock], rfl,
        by simp [settled, writeCall, readCall, Millisecond],
        by simp [busTxs, writeOnly, readOnly, writeCall, readCall]⟩

/-- C13 (settle delay): the effects every public operation adds to the trace obey the
settle discipline: each command write the bus accepted is followed at once by a sleep of
exactly 4 ms, before the next transaction or the return, and a refused write is followed
by no sleep.  With the bus accepting every transaction, `StartMeasurements` adds write,
4 ms, write, 4 ms, and `GetTemperatureOffset` adds write, 4 ms, read (each between the
lock and the unlock of the mutex). -/
theorem settle_delay (dev : SCD30 σ) (bus : i2c.Bus σ) (s : World σ) (v i : Nat) :
    (∃ added, (Open bus s).2.trace = s.trace ++ added ∧ settled added = true) ∧
      (∃ added, (StartMeasurements dev i s).2.trace = s.trace ++ added ∧ settled added = true) ∧
      (∃ added, (StopMeasurements dev s).2.trace = s.trace ++ added ∧ settled added = true) ∧
      (∃ added, (GetTemperatureOffset dev s).2.trace = s.trace ++ added ∧ settled added = true) ∧
      (∃ added, (SetTemperatureOffset dev v s).2.trace = s.trace ++ added ∧ settled added = true) ∧
      (∃ added, (GetMeasurement dev s).2.trace = s.trace ++ added ∧ settled added = true) ∧
      (∃ added, (HasMeasurement dev s).2.trace = s.trace ++ added ∧ settled added = true) ∧
      (∃ added, (SetAutomaticSelfCalibration dev v s).2.trace = s.trace ++ added ∧ settled added = true) ∧
      (∃ added, (SetForcedCalibration dev v s).2.trace = s.trace ++ added ∧ settled added = true) ∧
      ((dev.dev.Bus.Tx s.bus (intervalCall dev i)).1.err = none →
        (dev.dev.Bus.Tx (dev.dev.Bus.Tx s.bus (intervalCall dev i)).2
          (startCall dev)).1.err = none →
        (StartMeasurements dev i s).2.trace =
          s.trace ++ [.lock, .tx (intervalCall dev i) none, .sleep (4 * Millisecond),
            .tx (startCall dev) none, .sleep (4 * Millisecond), .unlock]) ∧
      ((dev.dev.Bus.Tx s.bus (writeCall dev [0x54, 0x03])).1.err = none →
        (dev.dev.Bus.Tx (dev.dev.Bus.Tx s.bus (writeCall dev [0x54, 0x03])).2
          (readCall dev 3)).1.err = none →
        (GetTemperatureOffset dev s).2.trace =
          s.trace ++ [.lock, .tx (writeCall dev [0x54, 0x03]) none,
            .sleep (4 * Millisecond), .tx (readCall dev 3) none, .unlock]) := by
  refine ⟨?_, ?_, ?_, ?_, ?_, ?_, ?_, ?_, ?_, ?_, ?_⟩
  · obtain ⟨added, h1, h2, _⟩ := Open_added bus s
    exact ⟨added, h1, h2⟩
  · obtain ⟨added, h1, h2, _⟩ := StartMeasurements_added dev i s
    exact ⟨added, h1, h2⟩
  · obtain ⟨added, h1, h2, _⟩ := mutex_write_added dev [0x01, 0x04] (by simp) s
    exact ⟨added, h1, h2⟩
  · obtain ⟨added, h1, h2, _⟩ := GetTemperatureOffset_added dev s
    exact ⟨added, h1, h2⟩
  · obtain ⟨added, h1, h2, _⟩ := mutex_write_added dev (argFrame 0x5403 v) (argFrame_ne_nil _ _) s
    exact ⟨added, h1, h2⟩
  · obtain ⟨added, h1, h2, _⟩ := GetMeasurement_added dev s
    exact ⟨added, h1, h2⟩
  · obtain ⟨added, h1, h2, _⟩ := HasMeasurement_added dev s
    exact ⟨added, h1, h2⟩
  · obtain ⟨added, h1, h2, _⟩ := mutex_write_added dev (argFrame 0x5306 v) (argFrame_ne_nil _ _) s
    exact ⟨added, h1, h2⟩
  · obtain ⟨added, h1, h2, _⟩ := mutex_write_added dev (argFrame 0x5204 v) (argFrame_ne_nil _ _) s
    exact ⟨added, h1, h2⟩
  · intro h1 h2
    rw [StartMeasurements_ok dev i s h1 h2]
    rfl
  · intro h1 h2
    rw [GetTemperatureOffset_ok dev s h1 h2]
    rfl

/-- C17: every bus transaction a public operation adds to the trace is write-only (a write
buffer that is not empty, no read buffer) or read-only (no write buffer, a read buffer of
exactly 3 bytes for `GetTemperatureOffset` and `HasMeasurement`, of 18 bytes for
`GetMeasurement`); the operations that are not getters issue write-only transactions
alone, and `Open` none. -/
theorem transactions_never_mixed (dev : SCD30 σ) (bus : i2c.Bus σ) (s : World σ)
    (v i : Nat) :
    (∃ added, (Open bus s).2.trace = s.trace ++ added ∧
        ∀ c ∈ busTxs added, writeOnly c) ∧
      (∃ added, (StartMeasurements dev i s).2.trace = s.trace ++ added ∧
        ∀ c ∈ busTxs added, writeOnly c) ∧
      (∃ added, (StopMeasurements dev s).2.trace = s.trace ++ added ∧
        ∀ c ∈ busTxs added, writeOnly c) ∧
      (∃ added, (GetTemperatureOffset dev s).2.trace = s.trace ++ added ∧
        ∀ c ∈ busTxs added, writeOnly c ∨ readOnly 3 c) ∧
      (∃ added, (SetTemperatureOffset dev v s).2.trace = s.trace ++ added ∧
        ∀ c ∈ busTxs added, writeOnly c) ∧
      (∃ added, (GetMeasurement dev s).2.trace = s.trace ++ added ∧
        ∀ c ∈ busTxs added, writeOnly c ∨ readOnly 18 c) ∧
      (∃ added, (HasMeasurement dev s).2.trace = s.trace ++ added ∧
        ∀ c ∈ busTxs added, writeOnly c ∨ readOnly 3 c) ∧
      (∃ added, (SetAutomaticSelfCalibration dev v s).2.trace = s.trace ++ added ∧
        ∀ c ∈ busTxs added, writeOnly c) ∧
      (∃ added, (SetForcedCalibration dev v s).2.trace = s.trace ++ added ∧
        ∀ c ∈ busTxs added, writeOnly c) ∧
      ∀ c : TxCall, ∀ n : Nat, ¬ (writeOnly c ∧ readOnly n c) := by
  refine ⟨?_, ?_, ?_, ?_, ?_, ?_, ?_, ?_, ?_, ?_⟩
  · obtain ⟨added, h1, _, h3⟩ := Open_added bus s
    exact ⟨added, h1, h3⟩
  · obtain ⟨added, h1, _, h3⟩ := StartMeasurements_added dev i s
    exact ⟨added, h1, h3⟩
  · obtain ⟨added, h1, _, h3⟩ := mutex_write_added dev [0x01, 0x04] (by simp) s
    exact ⟨added, h1, h3⟩
  · obtain ⟨added, h1, _, h3⟩ := GetTemperatureOffset_added dev s
    exact ⟨added, h1, h3⟩
  · obtain ⟨added, h1, _, h3⟩ := mutex_write_added dev (argFrame 0x5403 v) (argFrame_ne_nil _ _) s
    exact ⟨added, h1, h3⟩
  · obtain ⟨added, h1, _, h3⟩ := GetMeasurement_added dev s
    exact ⟨added, h1, h3⟩
  · obtain ⟨added, h1, _, h3⟩ := HasMeasurement_added dev s
    exact ⟨added, h1, h3⟩
  · obtain ⟨added, h1, _, h3⟩ := mutex_write_added dev (argFrame 0x5306 v) (argFrame_ne_nil _ _) s
    exact ⟨added, h1, h3⟩
  · obtain ⟨added, h1, _, h3⟩ := mutex_write_added dev (argFrame 0x5204 v) (argFrame_ne_nil _ _) s
    exact ⟨added, h1, h3⟩
  · rintro c n ⟨⟨⟨data, hw, _⟩, _⟩, hn, _⟩
    rw [hn] at hw
    exact absurd hw (by simp)

end effects

/-! ## Error detection -/

set_option maxRecDepth 100000 in
/-- The table is the xor of the images of the bits of its index. -/
theorem table_basis : ∀ x < 256,
    crcTable.data.getD x 0 =
      (if x.testBit 0 then 0x31 else 0) ^^^ (if x.testBit 1 then 0x62 else 0) ^^^
      (if x.testBit 2 then 0xC4 else 0) ^^^ (if x.testBit 3 then 0xB9 else 0) ^^^
      (if x.testBit 4 then 0x43 else 0) ^^^ (if x.testBit 5 then 0x86 else 0) ^^^
      (if x.testBit 6 then 0x3D else 0) ^^^ (if x.testBit 7 then 0x7A else 0) := by
  decide

set_option maxRecDepth 100000 in
theorem table_lt : ∀ x < 256, crcTable.data.getD x 0 < 256 := by
  decide

theorem ite_xor_bool (p q : Bool) (t : Nat) :
    (if (p ^^ q) = true then t else 0) =
      (if p = true then t else 0) ^^^ (if q = true then t else 0) := by
  cases p <;> cases q <;> simp

theorem xor_shuffle (a b c d : Nat) : (a ^^^ b) ^^^ (c ^^^ d) = (a ^^^ c) ^^^ (b ^^^ d) := by
  rw [Nat.xor_assoc, Nat.xor_assoc, ← Nat.xor_assoc b c d, Nat.xor_comm b c,
    Nat.xor_assoc c b d]

/-- The table is linear over xor on bytes. -/
theorem table_linear (a b : Nat) (ha : a < 256) (hb : b < 256) :
    crcTable.data.getD (a ^^^ b) 0 =
      crcTable.data.getD a 0 ^^^ crcTable.data.getD b 0 := by
  rw [table_basis _ (xor_byte_lt ha hb), table_basis a ha, table_basis b hb]
  simp only [Nat.testBit_xor, ite_xor_bool]
  generalize (if a.testBit 0 = true then 0x31 else 0) = a0
  generalize (if a.testBit 1 = true then 0x62 else 0) = a1
  generalize (if a.testBit 2 = true then 0xC4 else 0) = a2
  generalize (if a.testBit 3 = true then 0xB9 else 0) = a3
  generalize (if a.testBit 4 = true then 0x43 else 0) = a4
  generalize (if a.testBit 5 = true then 0x86 else 0) = a5
  generalize (if a.testBit 6 = true then 0x3D else 0) = a6
  generalize (if a.testBit 7 = true then 0x7A else 0) = a7
  generalize (if b.testBit 0 = true then 0x31 else 0) = b0
  generalize (if b.testBit 1 = true then 0x62 else 0) = b1
  generalize (if b.testBit 2 = true then 0xC4 else 0) = b2
  generalize (if b.testBit 3 = true then 0xB9 else 0) = b3
  generalize (if b.testBit 4 = true then 0x43 else 0) = b4
  generalize (if b.testBit 5 = true then 0x86 else 0) = b5
  generalize (if b.testBit 6 = true then 0x3D else 0) = b6
  generalize (if b.testBit 7 = true then 0x7A else 0) = b7
  rw [xor_shuffle (a0 ^^^ a1 ^^^ a2 ^^^ a3 ^^^ a4 ^^^ a5 ^^^ a6) a7,
    xor_shuffle (a0 ^^^ a1 ^^^ a2 ^^^ a3 ^^^ a4 ^^^ a5) a6,
    xor_shuffle (a0 ^^^ a1 ^^^ a2 ^^^ a3 ^^^ a4) a5,
    xor_shuffle (a0 ^^^ a1 ^^^ a2 ^^^ a3) a4,
    xor_shuffle (a0 ^^^ a1 ^^^ a2) a3,
    xor_shuffle (a0 ^^^ a1) a2,
    xor_shuffle a0 a1]

/-- The checksum of two bytes, as two table lookups. -/
theorem crc_pair (x y : Nat) :
    crc [x, y] = crcTable.data.getD (crcTable.data.getD (0xff ^^^ x) 0 ^^^ y) 0 := by
  rw [crc_eq_update]
  rfl

/-- The checksum is affine: changing the data by `e0`, `e1` changes the checksum by the
checksum with initial value zero of `e0`, `e1`. -/
theorem crc_pair_xor (d0 d1 e0 e1 : Nat) (hd0 : d0 < 256) (hd1 : d1 < 256)
    (he0 : e0 < 256) (he1 : e1 < 256) :
    crc [d0 ^^^ e0, d1 ^^^ e1] =
      crc [d0, d1] ^^^ crcTable.data.getD (crcTable.data.getD e0 0 ^^^ e1) 0 := by
  have hx : 0xff ^^^ d0 < 256 := xor_byte_lt (by decide) hd0
  have ht1 := table_lt _ hx
  have ht2 := table_lt _ he0
  have hassoc : 0xff ^^^ (d0 ^^^ e0) = (0xff ^^^ d0) ^^^ e0 := (Nat.xor_assoc _ _ _).symm
  rw [crc_pair, crc_pair, hassoc, table_linear _ _ hx he0,
    xor_shuffle (crcTable.data.getD (0xff ^^^ d0) 0) (crcTable.data.getD e0 0) d1 e1,
    table_linear _ _ (xor_byte_lt ht1 hd1) (xor_byte_lt ht2 he1)]

theorem flipMask_lt (k i : Nat) : flipMask k i < 256 := by
  unfold flipMask
  split
  · have h : i % 8 < 8 := Nat.mod_lt _ (by decide)
    rw [Nat.one_shiftLeft]
    calc 2 ^ (i % 8) < 2 ^ 8 := Nat.pow_lt_pow_right (by decide) h
      _ = 256 := by norm_num
  · decide

theorem flipBit_frame (a b c i : Nat) (hi : i < 24) :
    flipBit i [a, b, c] = [a ^^^ flipMask 0 i, b ^^^ flipMask 1 i, c ^^^ flipMask 2 i] := by
  interval_cases i <;> simp [flipBit, flipMask]

set_option maxRecDepth 100000 in
/-- No pattern of one flipped bit in 24 is a valid frame of the checksum with initial value
zero. -/
theorem single_flip_detected : ∀ i < 24,
    crcTable.data.getD (crcTable.data.getD (flipMask 0 i) 0 ^^^ flipMask 1 i) 0 ≠
      flipMask 2 i := by
  decide

set_option maxRecDepth 100000 in
/-- No pattern of two distinct flipped bits in 24 is a valid frame of the checksum with
initial value zero. -/
theorem double_flip_detected : ∀ i < 24, ∀ j < 24, i ≠ j →
    crcTable.data.getD
        (crcTable.data.getD (flipMask 0 i ^^^ flipMask 0 j) 0 ^^^
          (flipMask 1 i ^^^ flipMask 1 j)) 0 ≠
      flipMask 2 i ^^^ flipMask 2 j := by
  decide

/-- A frame whose data differs from valid data by `e0`, `e1` and whose checksum byte differs
by `ec` is rejected when `e0`, `e1`, `ec` is no valid frame of the checksum with initial
value zero. -/
theorem readValid16_rejects_pattern (d0 d1 e0 e1 ec : Nat) (hd0 : d0 < 256)
    (hd1 : d1 < 256) (he0 : e0 < 256) (he1 : e1 < 256)
    (h : crcTable.data.getD (crcTable.data.getD e0 0 ^^^ e1) 0 ≠ ec) :
    ∃ expected got,
      readValid16 [d0 ^^^ e0, d1 ^^^ e1, crc [d0, d1] ^^^ ec] =
        (.error (.crcError expected got), []) := by
  have hne : crc [d0 ^^^ e0, d1 ^^^ e1] ≠ crc [d0, d1] ^^^ ec := by
    rw [crc_pair_xor d0 d1 e0 e1 hd0 hd1 he0 he1]
    intro hx
    exact h (Nat.xor_right_inj.1 hx)
  exact ⟨crc [d0 ^^^ e0, d1 ^^^ e1], crc [d0, d1] ^^^ ec, by
    rw [readValid16_frame]
    simp [hne]⟩

/-- C19 (error detection over the whole frame): for all data bytes `d0`, `d1`, flipping any
one bit, or any two distinct bits, of the 24 bits of the valid frame
`[d0, d1, crc [d0, d1]]` gives a frame that `readValid16` rejects with a checksum
error. -/
theorem bit_flips_detected (d0 d1 : Nat) (hd0 : d0 < 256) (hd1 : d1 < 256) :
    (∀ i < 24, ∃ expected got,
        readValid16 (flipBit i [d0, d1, crc [d0, d1]]) =
          (.error (.crcError expected got), [])) ∧
      (∀ i < 24, ∀ j < 24, i ≠ j → ∃ expected got,
        readValid16 (flipBit j (flipBit i [d0, d1, crc [d0, d1]])) =
          (.error (.crcError expected got), [])) := by
  constructor
  · intro i hi
    rw [flipBit_frame _ _ _ i hi]
    exact readValid16_rejects_pattern d0 d1 _ _ _ hd0 hd1 (flipMask_lt 0 i)
      (flipMask_lt 1 i) (single_flip_detected i hi)
  · intro i hi j hj hij
    rw [flipBit_frame _ _ _ i hi, flipBit_frame _ _ _ j hj, Nat.xor_assoc d0,
      Nat.xor_assoc d1, Nat.xor_assoc (crc [d0, d1])]
    exact readValid16_rejects_pattern d0 d1 _ _ _ hd0 hd1
      (xor_byte_lt (flipMask_lt 0 i) (flipMask_lt 0 j))
      (xor_byte_lt (flipMask_lt 1 i) (flipMask_lt 1 j)) (double_flip_detected i hi j hj hij)

/-- Witness of C19 at the data bytes `0xBE`, `0xEF`. -/
theorem bit_flips_detected_witness :
    (∀ i < 24, ∃ expected got,
        readValid16 (flipBit i [0xBE, 0xEF, crc [0xBE, 0xEF]]) =
          (.error (.crcError expected got), [])) ∧
      (∀ i < 24, ∀ j < 24, i ≠ j → ∃ expected got,
        readValid16 (flipBit j (flipBit i [0xBE, 0xEF, crc [0xBE, 0xEF]])) =
          (.error (.crcError expected got), [])) :=
  bit_flips_detected 0xBE 0xEF (by decide) (by decide)

/-- Witness of C11: a bus that refuses the write of `StopMeasurements`, and a bus that
accepts the command write of `GetMeasurement` and refuses its read. -/
theorem transport_errors_surface_witness :
    ((StopMeasurements playbackDev (World.init [])).1 = .error (.busError 1) ∧
      busTxs (StopMeasurements playbackDev (World.init [])).2.trace =
        [writeCall playbackDev [0x01, 0x04]]) ∧
    ((GetMeasurement playbackDev
        (World.init [{ Addr := 0x61, W := some [0x03, 0x00], R := none }])).1 =
        .error (.busError 1) ∧
      busTxs (GetMeasurement playbackDev
        (World.init [{ Addr := 0x61, W := some [0x03, 0x00], R := none }])).2.trace =
        [writeCall playbackDev [0x03, 0x00], readCall playbackDev 18]) :=
  ⟨(transport_errors_surface playbackDev (World.init []) 1 0 0).1 (by rfl),
   (transport_errors_surface playbackDev
      (World.init [{ Addr := 0x61, W := some [0x03, 0x00], R := none }])
      1 0 0).2.2.2.2.2.2.2.2.2.2.2 (by rfl) (by rfl)⟩

/-- Witness of C13: the trace of `TestStartMeasurements`. -/
theorem settle_delay_witness :
    (StartMeasurements playbackDev 0x0123
        (World.init [{ Addr := 0x61, W := some [0x46, 0x00, 0x01, 0x23, 0xA0], R := none },
          { Addr := 0x61, W := some [0x00, 0x10, 0x00, 0x00, 0x81], R := none }])).2.trace =
      [.lock, .tx (intervalCall playbackDev 0x0123) none, .sleep 4000000,
        .tx (startCall playbackDev) none, .sleep 4000000, .unlock] :=
  (settle_delay playbackDev Playback
    (World.init [{ Addr := 0x61, W := some [0x46, 0x00, 0x01, 0x23, 0xA0], R := none },
      { Addr := 0x61, W := some [0x00, 0x10, 0x00, 0x00, 0x81], R := none }])
    0 0x0123).2.2.2.2.2.2.2.2.2.1 (by rfl) (by rfl)

/-- Witness of C20: the first group of the reply of `TestGetMeasurement` alone. -/
theorem short_input_safety_witness :
    (readValidFloat32 [0x3f, 0x8c, 0xad]).1 = .error .EOF :=
  (short_input_safety [0x3f, 0x8c, 0xad]).2.2.2.2 (by decide) (Or.inr (by rfl))

end Scd30
